import Mathlib

/-!
Verification of the YouTube analytics derivation pipeline
(module ai_analytics/youtube_analyzer.py).

The Python source is shallowly embedded: pure computations become Lean
functions over exact arithmetic (machine floats are idealised as rationals,
with square roots and logarithms taken in the reals), Python dictionaries
carrying heterogeneous values become association lists over an explicit
value type, and every call that can touch the network, the database or an
LLM becomes an oracle drawn from an environment record, so that theorems
quantify over every possible behaviour of those collaborators.

Numeric rounding follows Python semantics: the builtin round uses
round-half-to-even, modelled here by pyRound and its fixed-decimal
variants.
-/

namespace YT

/-! ## Python-style rounding (round-half-to-even) -/

/-- Python builtin round to an integer: nearest integer, ties to even. -/
def pyRound (q : ℚ) : ℤ :=
  if Int.fract q = 1/2 then
    (if Even ⌊q⌋ then ⌊q⌋ else ⌊q⌋ + 1)
  else round q

/-- Python round(x, d): round-half-to-even at d decimal places. -/
def pyRoundTo (d : ℕ) (q : ℚ) : ℚ := (pyRound (q * 10 ^ d) : ℚ) / 10 ^ d

/-- Real-valued variant of pyRound, for quantities built from sqrt/log. -/
noncomputable def pyRoundR (x : ℝ) : ℤ :=
  if Int.fract x = 1/2 then
    (if Even ⌊x⌋ then ⌊x⌋ else ⌊x⌋ + 1)
  else round x

/-- Real-valued variant of pyRoundTo. -/
noncomputable def pyRoundToR (d : ℕ) (x : ℝ) : ℝ := (pyRoundR (x * 10 ^ d) : ℝ) / 10 ^ d

/-! ## numpy aggregates over rational data

np.mean and the population variance underlying np.std, on exact
rationals. np.std itself is the real square root of qvariance. -/

/-- Mean of a list of rationals (np.mean). -/
def qmean (l : List ℚ) : ℚ := l.sum / l.length

/-- Population variance (the square of np.std, which uses ddof=0). -/
def qvariance (l : List ℚ) : ℚ := qmean (l.map (fun x => (x - qmean l) ^ 2))

/-! ## Duration parsing (parse_duration)

Source: re.match of PT(?:(\d+)H)?(?:(\d+)M)?(?:(\d+)S)? against the token;
re.match anchors at the start only and every group is optional, so any
token that does not begin with "PT" (or whose components are malformed)
contributes 0 for the missing groups.  Because each group is a maximal
digit run that must be immediately followed by its letter, the regex is
equivalent to the sequential component parser below. -/

/-- Maximal leading run of decimal digits of a character list. -/
def takeDigits : List Char → List Char × List Char
  | [] => ([], [])
  | c :: cs =>
    if c.isDigit then
      let (ds, rest) := takeDigits cs
      (c :: ds, rest)
    else ([], c :: cs)

/-- Numeric value of a most-significant-first digit list. -/
def digitsVal (ds : List Char) : ℕ :=
  ds.foldl (fun acc c => 10 * acc + (c.toNat - '0'.toNat)) 0

/-- One optional regex component (\d+)X: a nonempty digit run immediately
followed by the letter X consumes input and yields its value; anything
else leaves the input untouched and yields nothing. -/
def parseComponent (letter : Char) (cs : List Char) : Option ℕ × List Char :=
  let (ds, rest) := takeDigits cs
  match rest with
  | [] => (none, cs)
  | c :: rest' =>
    if c = letter ∧ ds ≠ [] then (some (digitsVal ds), rest')
    else (none, cs)

/-- parse_duration: ISO-8601-like duration token to total seconds. -/
def parse_duration (duration : String) : ℕ :=
  match duration.data with
  | 'P' :: 'T' :: cs =>
    let (hours, cs1) := parseComponent 'H' cs
    let (minutes, cs2) := parseComponent 'M' cs1
    let (seconds, _) := parseComponent 'S' cs2
    hours.getD 0 * 3600 + minutes.getD 0 * 60 + seconds.getD 0
  | _ => 0

/-- Builds the well-formed duration token for a given subset of
hour/minute/second components, each given as a digit string. -/
def durationToken (h m s : Option (List Char)) : String :=
  ⟨'P' :: 'T' ::
    ((h.elim [] (fun ds => ds ++ ['H'])) ++
     (m.elim [] (fun ds => ds ++ ['M'])) ++
     (s.elim [] (fun ds => ds ++ ['S'])))⟩

/-- A digit-string component is a nonempty list of decimal digits. -/
def IsDigits (ds : List Char) : Prop := ds ≠ [] ∧ ∀ c ∈ ds, c.isDigit

/-! ## Credential-pool rotation

Source: _rotate_youtube_key and _rotate_groq_key.  Both operate on an
integer cursor (-1 meaning "not started") over a pool of n keys.  The
YouTube rotation always advances to (i+1) mod n (sleeping when it wraps);
the Groq rotation instead returns the sentinel cursor -1 when the
increment wraps back to slot 0. -/

/-- Cursor transition of _rotate_youtube_key over a pool of n keys
(the returned new index; the key returned is the pool entry there). -/
def rotateYoutubeKey (n : ℕ) (i : ℤ) : ℤ :=
  if i = -1 then 0 else (i + 1) % n

/-- Cursor transition of _rotate_groq_key over a pool of n keys:
wrapping past the last key yields the exhaustion sentinel -1 (the key
returned alongside it is None), not slot 0. -/
def rotateGroqKey (n : ℕ) (i : ℤ) : ℤ :=
  let next := (i + 1) % n
  if next = 0 ∧ i ≠ -1 then -1 else next

/-! ## Consistency score (calculate_consistency)

Source branches: empty or singleton list returns 75; a list of exactly 2
values returns 70; with 3 or more values a zero mean returns 65, and
otherwise the coefficient of variation cv = std/mean*100 (np.std is the
population standard deviation) is mapped piecewise and clamped into
[20, 95].  The try/except wrapping in the source cannot fire on exact
arithmetic and is not modelled. -/

/-- calculate_consistency on a list of (float) values. -/
noncomputable def calculate_consistency (values : List ℚ) : ℝ :=
  if values.length < 2 then 75
  else if 3 ≤ values.length then
    (if qmean values = 0 then 65
     else
       let cv : ℝ := (Real.sqrt (qvariance values) / (qmean values : ℝ)) * 100
       let consistency := if cv < 50 then 85 - cv / 2
         else if cv < 100 then 70 - cv / 4
         else 40 - cv / 10
       max 20 (min consistency 95))
  else 70

/-- The consistency computation exactly as the specification words it:
below 2 data points the fixed default 75, otherwise the piecewise map of
cv = (stdev/mean)*100 clamped to [20, 95].  Used only to compare the
claimed behaviour against calculate_consistency. -/
noncomputable def claimedConsistency (values : List ℚ) : ℝ :=
  if values.length < 2 then 75
  else
    let cv : ℝ := (Real.sqrt (qvariance values) / (qmean values : ℝ)) * 100
    let c := if cv < 50 then 85 - cv / 2
      else if cv < 100 then 70 - cv / 4
      else 40 - cv / 10
    max 20 (min c 95)

/-! ## Video records and engagement aggregation -/

/-- Per-video facts as read out of a video_stats item by the metric
functions: statistics counters, the contentDetails duration token, the
snippet title, and the thumbnail/id added by get_video_details_safe. -/
structure Video where
  viewCount : ℕ
  likeCount : ℕ
  commentCount : ℕ
  duration : String
  title : String
  thumbnail_url : Option String
  id : Option String
deriving DecidableEq

/-- Engagement aggregate, one field per key of the dictionary built by
calculate_comprehensive_engagement.  The thumbnail and id fields are
absent from the source default dictionary; the default record models the
missing keys as none. -/
structure EngagementMetrics where
  total_recent_views : ℕ
  total_recent_likes : ℕ
  total_recent_comments : ℕ
  total_engagement : ℕ
  avg_engagement_rate : ℚ
  engagement_consistency : ℝ
  engagement_health : String
  avg_views_per_video : ℚ
  avg_likes_per_video : ℚ
  avg_comments_per_video : ℚ
  views_std_dev : ℝ
  performance_consistency : ℝ
  top_performing_video_views : ℕ
  top_performing_video_likes : ℕ
  top_performing_video_title : String
  top_performing_video_thumbnail : Option String
  top_performing_video_id : Option String
  videos_analyzed : ℕ

/-- get_default_engagement_metrics. -/
noncomputable def get_default_engagement_metrics : EngagementMetrics where
  total_recent_views := 0
  total_recent_likes := 0
  total_recent_comments := 0
  total_engagement := 0
  avg_engagement_rate := 0
  engagement_consistency := 0
  engagement_health := "Unknown"
  avg_views_per_video := 0
  avg_likes_per_video := 0
  avg_comments_per_video := 0
  views_std_dev := 0
  performance_consistency := 0
  top_performing_video_views := 0
  top_performing_video_likes := 0
  top_performing_video_title := ""
  top_performing_video_thumbnail := none
  top_performing_video_id := none
  videos_analyzed := 0

/-- assess_engagement_health_enhanced with the default category
argument, hence the general threshold row 8 / 5 / 3.  The video_count
parameter is accepted but, as in the source, never read. -/
def assess_engagement_health_enhanced (engagement_rate : ℚ) (_video_count : ℕ) : String :=
  if 8 ≤ engagement_rate then "Excellent"
  else if 5 ≤ engagement_rate then "Good"
  else if 3 ≤ engagement_rate then "Average"
  else "Needs Work"

/-- Engagement-rate distribution: only videos with a positive view count
contribute (likes+comments)/views*100. -/
def engagementRates (items : List Video) : List ℚ :=
  (items.filter (fun v => 0 < v.viewCount)).map
    (fun v => ((v.likeCount : ℚ) + v.commentCount) / v.viewCount * 100)

/-- calculate_comprehensive_engagement on the items list of video_stats
(an absent or empty list yields the default record; the per-video
durations list computed by the source loop is dead there and omitted). -/
noncomputable def calculate_comprehensive_engagement (items : List Video) : EngagementMetrics :=
  match items with
  | [] => get_default_engagement_metrics
  | top :: _ =>
    let view_counts : List ℚ := items.map (fun v => (v.viewCount : ℚ))
    let total_views := (items.map (·.viewCount)).sum
    let total_likes := (items.map (·.likeCount)).sum
    let total_comments := (items.map (·.commentCount)).sum
    let rates := engagementRates items
    let num_videos := items.length
    let avg_engagement : ℚ := if rates ≠ [] then qmean rates else 0
    let ec0 := if rates ≠ [] then calculate_consistency rates else 50
    let pc0 := if view_counts ≠ [] then calculate_consistency view_counts else 50
    let ec := if num_videos < 3 then max ec0 60 else ec0
    let pc := if num_videos < 3 then max pc0 60 else pc0
    { total_recent_views := total_views
      total_recent_likes := total_likes
      total_recent_comments := total_comments
      total_engagement := total_likes + total_comments
      avg_engagement_rate := pyRoundTo 2 avg_engagement
      engagement_consistency := ec
      engagement_health := assess_engagement_health_enhanced avg_engagement num_videos
      avg_views_per_video := if 0 < num_videos then pyRoundTo 1 ((total_views : ℚ) / num_videos) else 0
      avg_likes_per_video := if 0 < num_videos then pyRoundTo 1 ((total_likes : ℚ) / num_videos) else 0
      avg_comments_per_video := if 0 < num_videos then pyRoundTo 1 ((total_comments : ℚ) / num_videos) else 0
      views_std_dev := pyRoundToR 1 (if view_counts ≠ [] then Real.sqrt (qvariance view_counts) else 0)
      performance_consistency := pc
      top_performing_video_views := top.viewCount
      top_performing_video_likes := top.likeCount
      top_performing_video_title := top.title
      top_performing_video_thumbnail := top.thumbnail_url
      top_performing_video_id := top.id
      videos_analyzed := num_videos }

/-! ## Performance trend (analyze_performance_trend_enhanced) -/

/-- analyze_performance_trend_enhanced on the per-video performance
scores.  The source takes the first min(10, n) scores, splits them at the
midpoint into a newer prefix and an older suffix, and classifies the
percentage change of the newer mean over the older mean. -/
def analyze_performance_trend_enhanced (performances : List ℚ) : String :=
  if performances.length < 5 then "Insufficient Data"
  else
    let recent := performances.take (min 10 performances.length)
    if recent.length < 5 then "Insufficient Data"
    else
      let half := recent.length / 2
      let first_half := recent.drop half
      let second_half := recent.take half
      let first_avg := if first_half ≠ [] then qmean first_half else 0
      let second_avg := if second_half ≠ [] then qmean second_half else 0
      if first_avg = 0 then "Stable"
      else
        let percentage_change := (second_avg - first_avg) / first_avg * 100
        if 100 < percentage_change then "Explosive Growth"
        else if 50 < percentage_change then "Rapid Growth"
        else if 20 < percentage_change then "Growing"
        else if 5 < percentage_change then "Slow Growth"
        else if -20 < percentage_change then "Stable"
        else if -50 < percentage_change then "Declining"
        else "Rapid Decline"

/-- The ordered threshold table of the specification, as a function of
the percentage change. -/
def trendLabel (pct : ℚ) : String :=
  if 100 < pct then "Explosive Growth"
  else if 50 < pct then "Rapid Growth"
  else if 20 < pct then "Growing"
  else if 5 < pct then "Slow Growth"
  else if -20 < pct then "Stable"
  else if -50 < pct then "Declining"
  else "Rapid Decline"

/-! ## Channel scale and composite metrics -/

/-- assess_channel_scale as a function of the subscriber count. -/
def assess_channel_scale (subscribers : ℚ) : String :=
  if 10000000 ≤ subscribers then "mega"
  else if 1000000 ≤ subscribers then "large"
  else if 100000 ≤ subscribers then "medium"
  else if 10000 ≤ subscribers then "small"
  else if 1000 ≤ subscribers then "micro"
  else "nano"

/-- assess_engagement_health_scaled. -/
def assess_engagement_health_scaled (engagement_rate : ℚ) (scale : String) : String :=
  if scale = "mega" then
    if 3 ≤ engagement_rate then "Excellent"
    else if 2 ≤ engagement_rate then "Good"
    else if 1 ≤ engagement_rate then "Average"
    else "Needs Work"
  else if scale = "large" then
    if 6 ≤ engagement_rate then "Excellent"
    else if 4 ≤ engagement_rate then "Good"
    else if (5/2) ≤ engagement_rate then "Average"
    else "Needs Work"
  else
    if 8 ≤ engagement_rate then "Excellent"
    else if 5 ≤ engagement_rate then "Good"
    else if 3 ≤ engagement_rate then "Average"
    else "Needs Work"

/-- Composite scores, one field per key of the dictionary returned by
calculate_ai_enhanced_metrics. -/
structure AIMetrics where
  channel_health_score : ℤ
  content_quality_score : ℤ
  growth_potential : String
  performance_tier : String
  viral_ratio : ℚ
  engagement_health : String
  audience_loyalty_score : ℤ
  algorithm_favorability : ℤ

/-- calculate_ai_enhanced_metrics, as a function of the values it pulls
out of the channel/engagement/content/performance dictionaries. -/
def calculate_ai_enhanced_metrics (subscribers : ℤ) (engagement_rate : ℚ)
    (top_video_views : ℤ) (consistency : ℚ) (content_diversity : ℚ)
    (performance_trend : String) : AIMetrics :=
  let viral_ratio : ℚ := (top_video_views : ℚ) / max (subscribers : ℚ) 1
  let channel_scale := assess_channel_scale (subscribers : ℚ)
  let health_score : ℚ :=
    if channel_scale = "mega" then
      min (min (engagement_rate * 10) 30 + min (consistency * (8/10)) 30 +
        min (content_diversity * (4/10)) 20 + min (viral_ratio * (1/10)) 20) 100
    else if channel_scale = "small" then
      min (min (engagement_rate * 8) 40 + min (consistency * (6/10)) 25 +
        min (content_diversity * (5/10)) 20 + min (viral_ratio * 3) 15) 100
    else
      min (min (engagement_rate * 6) 35 + min (consistency * (5/10)) 25 +
        min (content_diversity * (4/10)) 20 + min (viral_ratio * 2) 20) 100
  let content_quality : ℚ :=
    min (min (engagement_rate * 7) 40 + min (consistency * (4/10)) 30 +
      min (content_diversity * (3/10)) 20 +
      (if performance_trend = "Explosive Growth" ∨ performance_trend = "Rapid Growth" then 10
       else if performance_trend = "Growing" ∨ performance_trend = "Stable" then 5
       else 0)) 100
  let growth_potential :=
    if channel_scale = "mega" then
      if 2 ≤ engagement_rate ∧ 70 ≤ consistency then "Medium"
      else if (3/2) ≤ engagement_rate then "Low-Medium"
      else "Low"
    else
      if 20 < viral_ratio ∨ 8 < engagement_rate then "High"
      else if 10 < viral_ratio ∨ 6 < engagement_rate then "Medium-High"
      else if 5 < viral_ratio ∨ 4 < engagement_rate then "Medium"
      else if 2 < engagement_rate then "Low-Medium"
      else "Low"
  let performance_tier :=
    if 80 ≤ health_score ∧ (if channel_scale ≠ "mega" then (6:ℚ) else 2) ≤ engagement_rate then
      "Excellent"
    else if 65 ≤ health_score ∧ (if channel_scale ≠ "mega" then (4:ℚ) else 3/2) ≤ engagement_rate then
      "Good"
    else if 50 ≤ health_score then "Average"
    else "Needs Improvement"
  { channel_health_score := pyRound health_score
    content_quality_score := pyRound content_quality
    growth_potential := growth_potential
    performance_tier := performance_tier
    viral_ratio := pyRoundTo 1 viral_ratio
    engagement_health := assess_engagement_health_scaled engagement_rate channel_scale
    audience_loyalty_score := pyRound (min (engagement_rate * (12/10) + consistency * (3/10)) 100)
    algorithm_favorability :=
      pyRound (min (consistency * (4/10) + content_diversity * (3/10) + engagement_rate * (3/10)) 100) }

/-! ## Performance-metric defaults -/

/-- Timing/trend aggregate, one field per key of the dictionaries
returned by calculate_performance_metrics_enhanced and
get_default_performance_metrics. -/
structure PerformanceMetrics where
  avg_duration_seconds : ℚ
  avg_performance_score : ℚ
  optimal_video_length : String
  duration_consistency : ℚ
  performance_trend : String
  estimated_retention_rate : ℚ
  content_velocity_score : ℚ

/-- get_default_performance_metrics: the record returned for an absent
or empty video collection. -/
def get_default_performance_metrics : PerformanceMetrics where
  avg_duration_seconds := 0
  avg_performance_score := 0
  optimal_video_length := "Unknown"
  duration_consistency := 0
  performance_trend := "Unknown"
  estimated_retention_rate := 0
  content_velocity_score := 0

/-! ## Content-diversity score (calculate_diversity_score_enhanced)

The categories dictionary maps category labels to accumulated weighted
match scores; only its size and its multiset of values feed the score. -/

/-- calculate_diversity_score_enhanced on the label/score association
list standing for the categories dictionary. -/
noncomputable def calculate_diversity_score_enhanced (categories : List (String × ℚ)) : ℝ :=
  if categories = [] then 0
  else
    let num_categories := categories.length
    let total_videos := (categories.map Prod.snd).sum
    if total_videos = 0 then 0
    else
      let proportions : List ℚ := categories.map (fun kv => kv.2 / total_videos)
      let entropy : ℝ :=
        -(((proportions.filter (fun p => 0 < p)).map
            (fun p : ℚ => (p : ℝ) * Real.log (p : ℝ))).sum)
      let max_entropy : ℝ := Real.log (num_categories : ℝ)
      let base_diversity := if 0 < max_entropy then entropy / max_entropy * 100 else 0
      let strong_categories := (proportions.filter (fun p => (15/100 : ℚ) ≤ p)).length
      let balance_bonus : ℕ := min (strong_categories * 10) 20
      pyRoundToR 1 (min (base_diversity + (balance_bonus : ℝ)) 100)

/-! ## Insights and recommendations

The Groq HTTP calls are modelled as oracles: for the admin insight path a
single Except value (an exception anywhere in the call yields error), and
for the public path one outcome per pool key, where some l means an HTTP
200 whose body contained a parseable JSON object with an insights list l,
and none covers every other outcome (no JSON, parse error, 401/403/429,
other status codes, network exceptions). -/

/-- Narrative insight, one field per key of the dictionaries built by the
generators. -/
structure Insight where
  insightType : String
  title : String
  description : String
  priority : String
  confidence : ℚ
  actionable_steps : List String
deriving DecidableEq

/-- Narrative recommendation (no confidence field in the source dicts). -/
structure Recommendation where
  recType : String
  title : String
  description : String
  priority : String
  actionable_steps : List String
deriving DecidableEq

/-- generate_enhanced_rule_based_insights: the deterministic admin
fallback, always three items.  Numeric formatting (:.0f and :.1f) is
rendered through pyRound/pyRoundTo and toString. -/
def generate_enhanced_rule_based_insights (subscribers top_video_views : ℤ)
    (engagement_rate : ℚ) (top_video_title : Option String)
    (optimal_length : String) : List Insight :=
  let viral_ratio : ℚ := (top_video_views : ℚ) / max (subscribers : ℚ) 1
  let insight1 : Insight :=
    if 50 < viral_ratio then
      { insightType := "growth_opportunity"
        title := "🚀 EXPLOSIVE VIRAL POTENTIAL DETECTED"
        description := "Your top video has " ++ toString top_video_views ++
          " views - that\x27s " ++ toString (pyRound viral_ratio) ++
          "X your subscriber count! This indicates massive content appeal to new audiences."
        priority := "high"
        confidence := 95/100
        actionable_steps :=
          ["ANALYZE: Study why \"" ++ top_video_title.getD "your top video" ++ "\" went viral",
           "REPLICATE: Create more content in the exact same style/format",
           "PROMOTE: Feature this video in your channel trailer and pinned comment",
           "CONVERT: Add strong subscriber calls-to-action in similar videos"] }
    else
      { insightType := "growth_opportunity"
        title := "Build Audience Foundation"
        description := "Focus on establishing your channel with " ++ toString subscribers ++
          " subscribers and building your initial audience trust."
        priority := "high"
        confidence := 90/100
        actionable_steps :=
          ["Create consistent content schedule",
           "Engage with every comment",
           "Optimize video metadata",
           "Share on relevant platforms"] }
  let insight2 : Insight :=
    if engagement_rate < 3 then
      { insightType := "engagement_boost"
        title := "Improve Audience Engagement"
        description := "Your engagement rate of " ++ toString (pyRoundTo 1 engagement_rate) ++
          "% is below the YouTube average. Focus on increasing viewer interaction."
        priority := "high"
        confidence := 88/100
        actionable_steps :=
          ["Add clear calls-to-action in video intros and outros",
           "Create interactive content like polls and Q&As",
           "Respond to comments within 24 hours",
           "Use YouTube Community tab for engagement"] }
    else
      { insightType := "engagement_boost"
        title := "Maintain Strong Engagement"
        description := "Your " ++ toString (pyRoundTo 1 engagement_rate) ++
          "% engagement rate provides a solid foundation for growth."
        priority := "medium"
        confidence := 80/100
        actionable_steps :=
          ["Continue engaging with your loyal audience",
           "Experiment with new interactive content formats",
           "Analyze retention metrics weekly",
           "Network with creators in your niche"] }
  let insight3 : Insight :=
    { insightType := "content_strategy"
      title := optimal_length ++ " Content Excellence"
      description := "Your optimal video length is " ++ optimal_length.toLower ++
        " - perfect for audience retention and algorithm favorability."
      priority := "high"
      confidence := 88/100
      actionable_steps :=
        ["Maintain " ++ optimal_length.toLower ++ " format for new videos",
         "Focus on strong openings (first 15 seconds)",
         "Use chapter timestamps for better retention",
         "Create content series to encourage binge-watching"] }
  [insight1, insight2, insight3]

/-- generate_public_rule_based_insights: the deterministic public
fallback, always three items. -/
def generate_public_rule_based_insights (subscribers top_video_views : ℤ)
    (engagement_rate : ℚ) (top_video_title : Option String)
    (content_diversity : ℚ) : List Insight :=
  let viral_ratio : ℚ := (top_video_views : ℚ) / max (subscribers : ℚ) 1
  let insight1 : Insight :=
    if 50 < viral_ratio then
      { insightType := "growth_opportunity"
        title := "🚀 Explosive Viral Potential"
        description := "Your top video has " ++ toString top_video_views ++ " views - " ++
          toString (pyRound viral_ratio) ++
          "X your subscriber count! This indicates massive content appeal to new audiences."
        priority := "high"
        confidence := 95/100
        actionable_steps :=
          ["Analyze why \"" ++ top_video_title.getD "your top video" ++ "\" resonated so well",
           "Create more content in the same successful format",
           "Promote this video in your channel trailer and community posts",
           "Add strong subscriber calls-to-action in similar videos"] }
    else
      { insightType := "growth_opportunity"
        title := "Build Audience Foundation"
        description := "Focus on establishing your channel with " ++ toString subscribers ++
          " subscribers and building initial audience trust."
        priority := "high"
        confidence := 90/100
        actionable_steps :=
          ["Create consistent content schedule",
           "Engage with every comment to build community",
           "Optimize video metadata for better discovery",
           "Share content on relevant platforms"] }
  let insight2 : Insight :=
    if engagement_rate < 4 then
      { insightType := "engagement_boost"
        title := "Improve Audience Engagement"
        description := "Your engagement rate of " ++ toString engagement_rate ++
          "% is below the YouTube average. Focus on increasing viewer interaction."
        priority := "high"
        confidence := 85/100
        actionable_steps :=
          ["Add clear calls-to-action in video intros and outros",
           "Create interactive content like polls and Q&As",
           "Respond to comments promptly to build community",
           "Use YouTube Community tab for engagement between uploads"] }
    else
      { insightType := "engagement_boost"
        title := "Maintain Strong Engagement"
        description := "Your " ++ toString engagement_rate ++
          "% engagement rate provides a solid foundation for growth."
        priority := "medium"
        confidence := 80/100
        actionable_steps :=
          ["Continue engaging with your loyal audience",
           "Experiment with new interactive content formats",
           "Analyze retention metrics to identify drop-off points",
           "Network with creators in your niche"] }
  let insight3 : Insight :=
    if content_diversity < 60 then
      { insightType := "content_strategy"
        title := "Diversify Content Approach"
        description :=
          "Expanding your content range can help attract wider audience segments and reduce viewer fatigue."
        priority := "medium"
        confidence := 78/100
        actionable_steps :=
          ["Add one new content category each month",
           "Survey your audience for content preferences",
           "Test different video formats and lengths",
           "Analyze competitor content strategies"] }
    else
      { insightType := "content_strategy"
        title := "Optimize Content Performance"
        description :=
          "Your diverse content portfolio provides opportunities for strategic optimization."
        priority := "medium"
        confidence := 75/100
        actionable_steps :=
          ["Double down on your best-performing content categories",
           "Create content series around successful topics",
           "Optimize publishing schedule based on audience activity",
           "Monitor trending topics in your niche"] }
  [insight1, insight2, insight3]

/-- generate_ai_insights_enhanced: take the Groq admin result when it has
at least three items, otherwise (too few items, no list, or an exception
anywhere in the attempt) fall back to the rule-based generator. -/
def generate_ai_insights_enhanced (groq_admin : Except Unit (List Insight))
    (subscribers top_video_views : ℤ) (engagement_rate : ℚ)
    (top_video_title : Option String) (optimal_length : String) : List Insight :=
  match groq_admin with
  | .ok groq_insights =>
    if groq_insights ≠ [] ∧ 3 ≤ groq_insights.length then groq_insights
    else generate_enhanced_rule_based_insights subscribers top_video_views
      engagement_rate top_video_title optimal_length
  | .error _ => generate_enhanced_rule_based_insights subscribers top_video_views
      engagement_rate top_video_title optimal_length

/-- generate_groq_insights_public (the later definition in the module,
which shadows the earlier one): walk the key pool, returning the first
HTTP-200 response whose parsed insights list has at least three items;
every other per-key outcome advances to the next key; an exhausted pool
falls back to the public rule-based generator. -/
def generate_groq_insights_public (key_results : List (Option (List Insight)))
    (subscribers top_video_views : ℤ) (engagement_rate : ℚ)
    (top_video_title : Option String) (content_diversity : ℚ) : List Insight :=
  match key_results with
  | [] => generate_public_rule_based_insights subscribers top_video_views
      engagement_rate top_video_title content_diversity
  | result :: rest =>
    match result with
    | some insights =>
      if 3 ≤ insights.length then insights
      else generate_groq_insights_public rest subscribers top_video_views
        engagement_rate top_video_title content_diversity
    | none => generate_groq_insights_public rest subscribers top_video_views
        engagement_rate top_video_title content_diversity

/-- The generic padding recommendation appended while fewer than three
recommendations exist. -/
def genericRecommendation : Recommendation where
  recType := "general"
  title := "Continue Strategic Growth"
  description := "Maintain consistent content quality and audience engagement."
  priority := "medium"
  actionable_steps :=
    ["Monitor analytics regularly",
     "Stay updated with platform algorithm changes",
     "Engage with your community consistently",
     "Experiment with new content ideas"]

/-- generate_recommendations_enhanced: up to three conditional
recommendations, padded with the generic entry while fewer than three,
then truncated to exactly three. -/
def generate_recommendations_enhanced (subscribers : ℤ) (health_score : ℚ)
    (content_diversity : ℚ) : List Recommendation :=
  let recommendations : List Recommendation :=
    (if subscribers < 1000 then
      [{ recType := "foundation"
         title := "Build Audience Foundation"
         description :=
           "Focus on establishing your channel identity and building initial audience trust."
         priority := "high"
         actionable_steps :=
           ["Define clear channel niche and value proposition",
            "Create 5-10 pillar content pieces",
            "Engage with every comment for first month",
            "Optimize all video metadata (titles, descriptions, tags)"] }]
     else []) ++
    (if content_diversity < 60 then
      [{ recType := "content_strategy"
         title := "Diversify Content Approach"
         description := "Expand your content range to attract wider audience segments."
         priority := "medium"
         actionable_steps :=
           ["Add one new content category each month",
            "Test different video formats (tutorials, reviews, vlogs)",
            "Survey audience for content preferences",
            "Analyze competitor content strategies"] }]
     else []) ++
    (if health_score < 60 then
      [{ recType := "optimization"
         title := "Improve Core Metrics"
         description :=
           "Focus on improving fundamental channel metrics before aggressive growth."
         priority := "high"
         actionable_steps :=
           ["Increase audience engagement through interactive content",
            "Improve video retention with better editing and pacing",
            "Establish consistent upload schedule",
            "Analyze and address audience drop-off points"] }]
     else [])
  let padded := recommendations ++
    List.replicate (3 - recommendations.length) genericRecommendation
  padded.take 3

/-! ## The Analysis dictionary and the analyze_channel orchestration

Python dictionaries with heterogeneous values are association lists over
an explicit value type.  Dynamic typing errors (KeyError on direct
indexing, TypeError on arithmetic with a non-number, attribute or item
assignment on a non-dictionary) surface as Except errors, which the
orchestrator catches exactly where analyze_channel has its try/except. -/

/-- A Python value as it appears in the analysis dictionaries. -/
inductive Val where
  | num : ℚ → Val
  | str : String → Val
  | list : List Val → Val
  | dict : List (String × Val) → Val
  | null : Val

/-- A Python dictionary with string keys. -/
abbrev Obj := List (String × Val)

/-- Direct indexing obj[k]: KeyError when the key is absent. -/
def pyKey (a : Obj) (k : String) : Except Unit Val :=
  match List.lookup k a with
  | some v => .ok v
  | none => .error ()

/-- Using a value as a dictionary (method access or item assignment):
TypeError unless it is one. -/
def pyDict : Val → Except Unit Obj
  | .dict d => .ok d
  | _ => .error ()

/-- Using a value in arithmetic or an ordered comparison: TypeError
unless it is a number. -/
def pyNum : Val → Except Unit ℚ
  | .num q => .ok q
  | _ => .error ()

/-- Python dict.get(k, default). -/
def dictGet (o : Obj) (k : String) (d : Val) : Val := (List.lookup k o).getD d

/-- Python item assignment obj[k] = v (replace when present, else append). -/
def dictSet (o : Obj) (k : String) (v : Val) : Obj :=
  if o.any (fun kv => kv.1 = k) then
    o.map (fun kv => if kv.1 = k then (k, v) else kv)
  else o ++ [(k, v)]

/-- safe_get_attr of convert_snapshot_to_analysis: a missing attribute or
a stored None yields the default.  The snapshot row is modelled as an
attribute/value association list. -/
def safe_get_attr (snapshot : Obj) (attr : String) (default : Val) : Val :=
  match List.lookup attr snapshot with
  | some .null => default
  | some v => v
  | none => default

/-- generate_basic_insights_fallback: the three static insights stored in
the fallback analysis. -/
def generate_basic_insights_fallback : List Insight :=
  [{ insightType := "growth_opportunity"
     title := "Establish Channel Foundation"
     description :=
       "Focus on building a strong content foundation and engaging with your initial audience."
     priority := "high"
     confidence := 85/100
     actionable_steps :=
       ["Create consistent content schedule",
        "Engage with audience comments",
        "Optimize video titles and descriptions",
        "Analyze basic YouTube analytics"] },
   { insightType := "content_strategy"
     title := "Develop Content Strategy"
     description :=
       "Build a clear content strategy that aligns with your channel goals and audience interests."
     priority := "medium"
     confidence := 80/100
     actionable_steps :=
       ["Define your target audience",
        "Research content topics in your niche",
        "Create content calendar",
        "Test different video formats"] },
   { insightType := "engagement_boost"
     title := "Boost Audience Engagement"
     description :=
       "Increase viewer interaction and build a loyal community around your content."
     priority := "medium"
     confidence := 78/100
     actionable_steps :=
       ["Use calls-to-action in videos",
        "Respond to comments promptly",
        "Create interactive content (polls, Q&A)",
        "Run viewer challenges or contests"] }]

/-- An insight dictionary as stored inside an analysis value. -/
def insightVal (i : Insight) : Val :=
  .dict [("type", .str i.insightType), ("title", .str i.title),
    ("description", .str i.description), ("priority", .str i.priority),
    ("confidence", .num i.confidence),
    ("actionable_steps", .list (i.actionable_steps.map .str))]

/-- get_enhanced_fallback_analysis: the static all-Unknown analysis
(the channel_id argument is only logged in the source). -/
def get_enhanced_fallback_analysis (_channel_id : String) : Obj :=
  [("channel_metrics", .dict
     [("channel_title", .str "YouTube Channel"), ("subscribers", .num 0),
      ("total_views", .num 0), ("total_videos", .num 0),
      ("channel_age_days", .num 0), ("country", .str "Unknown"),
      ("custom_url", .str "")]),
   ("engagement_metrics", .dict
     [("avg_engagement_rate", .num 0), ("engagement_health", .str "Unknown"),
      ("total_recent_likes", .num 0), ("total_recent_comments", .num 0),
      ("videos_analyzed", .num 0), ("avg_views_per_video", .num 0),
      ("avg_likes_per_video", .num 0), ("avg_comments_per_video", .num 0),
      ("performance_consistency", .num 0), ("views_std_dev", .num 0),
      ("top_performing_video_views", .num 0), ("top_performing_video_likes", .num 0),
      ("top_performing_video_title", .str ""), ("engagement_consistency", .num 0)]),
   ("performance_metrics", .dict
     [("avg_duration_seconds", .num 0), ("optimal_video_length", .str "Unknown"),
      ("performance_trend", .str "Unknown"), ("avg_performance_score", .num 0),
      ("duration_consistency", .num 0), ("estimated_retention_rate", .num 0),
      ("content_velocity_score", .num 0)]),
   ("ai_enhanced_metrics", .dict
     [("channel_health_score", .num 0), ("performance_tier", .str "Unknown"),
      ("growth_potential", .str "Unknown"), ("content_quality_score", .num 0)]),
   ("content_analysis", .dict
     [("content_categories", .dict []), ("publishing_frequency", .str "Unknown"),
      ("optimal_video_length", .str "Unknown"), ("content_gaps", .list []),
      ("trending_alignment_score", .num 0), ("content_diversity_score", .num 0),
      ("total_videos_analyzed", .num 0)]),
   ("demographics", .dict
     [("age_groups", .dict [("18-24", .num 35), ("25-34", .num 40),
        ("35-44", .num 15), ("45+", .num 10)]),
      ("gender_ratio", .dict [("male", .num 65), ("female", .num 35)]),
      ("geographic_distribution", .dict [("US", .num 40), ("UK", .num 15),
        ("India", .num 10), ("Other", .num 35)]),
      ("interests", .list [.str "Technology", .str "Education", .str "Tutorials"])]),
   ("ai_insights", .list (generate_basic_insights_fallback.map insightVal)),
   ("growth_predictions", .dict []),
   ("recommendations", .list []),
   ("data_source", .str "fallback")]

/-- convert_snapshot_to_analysis on a database snapshot row, built
entirely through safe_get_attr and tagged cached_7day. -/
def convert_snapshot_to_analysis (s : Obj) : Obj :=
  [("channel_metrics", .dict
     [("channel_title", safe_get_attr s "channel_title" (.str "YouTube Channel")),
      ("channel_description", safe_get_attr s "channel_description" (.str "")),
      ("subscribers", safe_get_attr s "subscribers" (.num 0)),
      ("total_views", safe_get_attr s "total_views" (.num 0)),
      ("total_videos", safe_get_attr s "total_videos" (.num 0)),
      ("channel_age_days", safe_get_attr s "channel_age_days" (.num 0)),
      ("country", safe_get_attr s "channel_country" (.str "Unknown")),
      ("custom_url", safe_get_attr s "channel_custom_url" (.str "")),
      ("published_at", safe_get_attr s "channel_published_at" .null)]),
   ("engagement_metrics", .dict
     [("avg_engagement_rate", safe_get_attr s "avg_engagement_rate" (.num 0)),
      ("engagement_health", safe_get_attr s "engagement_health" (.str "Unknown")),
      ("total_recent_likes", safe_get_attr s "total_likes" (.num 0)),
      ("total_recent_comments", safe_get_attr s "total_comments" (.num 0)),
      ("videos_analyzed", safe_get_attr s "videos_analyzed" (.num 0)),
      ("avg_views_per_video", safe_get_attr s "avg_views_per_video" (.num 0)),
      ("avg_likes_per_video", safe_get_attr s "avg_likes_per_video" (.num 0)),
      ("avg_comments_per_video", safe_get_attr s "avg_comments_per_video" (.num 0)),
      ("performance_consistency", safe_get_attr s "performance_consistency" (.num 0)),
      ("total_recent_views", safe_get_attr s "total_views" (.num 0)),
      ("total_engagement", safe_get_attr s "total_engagement" (.num 0)),
      ("views_std_dev", safe_get_attr s "views_std_dev" (.num 0)),
      ("top_performing_video_views", safe_get_attr s "top_performing_video_views" (.num 0)),
      ("top_performing_video_likes", safe_get_attr s "top_performing_video_likes" (.num 0)),
      ("top_performing_video_title", safe_get_attr s "top_performing_video_title" (.str "")),
      ("engagement_consistency", safe_get_attr s "engagement_consistency" (.num 0))]),
   ("performance_metrics", .dict
     [("avg_duration_seconds", safe_get_attr s "avg_duration_seconds" (.num 0)),
      ("optimal_video_length", safe_get_attr s "optimal_video_length" (.str "Unknown")),
      ("performance_trend", safe_get_attr s "performance_trend" (.str "Unknown")),
      ("avg_performance_score", safe_get_attr s "avg_performance_score" (.num 0)),
      ("duration_consistency", safe_get_attr s "duration_consistency" (.num 0)),
      ("estimated_retention_rate", safe_get_attr s "estimated_retention_rate" (.num 0)),
      ("content_velocity_score", safe_get_attr s "content_velocity_score" (.num 0))]),
   ("ai_enhanced_metrics", .dict
     [("channel_health_score", safe_get_attr s "channel_health_score" (.num 0)),
      ("performance_tier", safe_get_attr s "performance_tier" (.str "Unknown")),
      ("growth_potential", safe_get_attr s "growth_potential" (.str "Unknown")),
      ("content_quality_score", safe_get_attr s "content_quality_score" (.num 0))]),
   ("content_analysis", .dict
     [("content_categories", safe_get_attr s "content_categories" (.dict [])),
      ("publishing_frequency", safe_get_attr s "publishing_frequency" (.str "Unknown")),
      ("optimal_video_length", safe_get_attr s "optimal_video_length" (.str "Unknown")),
      ("content_gaps", safe_get_attr s "content_gaps" (.list [])),
      ("trending_alignment_score", safe_get_attr s "trending_topics_alignment" (.num 0)),
      ("content_diversity_score", safe_get_attr s "content_diversity_score" (.num 0)),
      ("total_videos_analyzed", safe_get_attr s "videos_analyzed" (.num 0))]),
   ("demographics", .dict
     [("age_groups", safe_get_attr s "estimated_age_groups" (.dict [])),
      ("gender_ratio", safe_get_attr s "estimated_gender_ratio" (.dict [])),
      ("geographic_distribution", safe_get_attr s "geographic_distribution" (.dict [])),
      ("interests", safe_get_attr s "audience_interests" (.list []))]),
   ("ai_insights", safe_get_attr s "ai_insights" (.list [])),
   ("growth_predictions", safe_get_attr s "growth_predictions" (.dict [])),
   ("recommendations", safe_get_attr s "recommendations" (.list [])),
   ("data_source", .str "cached_7day")]

/-- unify_data_sources: recompute the viral ratio into the composite
metrics and damp the health score of small low-engagement channels.
Every dynamic-typing hazard of the source line is preserved as a
potential error. -/
def unify_data_sources (analysis : Obj) : Except Unit Obj :=
  (pyKey analysis "channel_metrics").bind fun cmV =>
  (pyDict cmV).bind fun cm =>
  (pyKey analysis "engagement_metrics").bind fun emV =>
  (pyDict emV).bind fun em =>
  let engagement_rate := dictGet em "avg_engagement_rate" (.num 0)
  (pyNum (dictGet cm "subscribers" (.num 0))).bind fun subscribers =>
  (pyNum (dictGet em "top_performing_video_views" (.num 0))).bind fun top_video_views =>
  let viral_ratio := top_video_views / max subscribers 1
  if (List.lookup "ai_enhanced_metrics" analysis).isSome then
    (pyKey analysis "ai_enhanced_metrics").bind fun aiV =>
    (pyDict aiV).bind fun ai =>
    let ai1 := dictSet ai "viral_ratio" (.num (pyRoundTo 1 viral_ratio))
    let channel_scale := assess_channel_scale subscribers
    ((if channel_scale = "nano" ∨ channel_scale = "micro" then
        (pyNum engagement_rate).bind fun er =>
        if er < 3 then
          (pyNum (dictGet ai1 "channel_health_score" (.num 0))).bind fun current_health =>
          if 70 < current_health then
            .ok (dictSet ai1 "channel_health_score" (.num (max 30 (min 60 current_health))))
          else .ok ai1
        else .ok ai1
      else .ok ai1) : Except Unit Obj).bind fun ai2 =>
    .ok (dictSet analysis "ai_enhanced_metrics" (.dict ai2))
  else .ok analysis

/-- Environment of oracles for one analyze_channel invocation: the cache
row, the fetch results and every downstream stage, each able to return an
arbitrary value or raise. -/
structure AnalyzerEnv where
  cachedSnapshot : Option Obj
  convertRaises : Bool
  channelData : Except Unit (Option Obj)
  videosData : Except Unit Val
  engagement : Except Unit Val
  contentAnalysis : Except Unit Val
  performance : Except Unit Val
  growthMetrics : Except Unit Val
  aiMetrics : Except Unit Val
  demographics : Except Unit Val
  insights : Except Unit Val
  predictions : Except Unit Val
  recommendations : Except Unit Val
  saveResult : Except Unit Unit
  timestamp : String

/-- get_recent_analysis_safe: a database miss (or any internal error) is
None; a hit is converted, with the conversion itself falling back to the
static analysis when it raises. -/
def get_recent_analysis_safe (env : AnalyzerEnv) : Option Obj :=
  env.cachedSnapshot.map (fun s =>
    if env.convertRaises then get_enhanced_fallback_analysis ""
    else convert_snapshot_to_analysis s)

/-- The comprehensive analysis dictionary assembled on the live path,
tagged youtube_api_v3 (the key order of the source literal). -/
def liveAnalysisDict (channel_data : Obj)
    (engagement_metrics performance_metrics content_analysis growth_metrics
     ai_metrics demographics insights predictions recommendations : Val)
    (timestamp : String) : Obj :=
  [("channel_metrics", .dict channel_data),
   ("engagement_metrics", engagement_metrics),
   ("performance_metrics", performance_metrics),
   ("content_analysis", content_analysis),
   ("growth_metrics", growth_metrics),
   ("ai_enhanced_metrics", ai_metrics),
   ("demographics", demographics),
   ("ai_insights", insights),
   ("growth_predictions", predictions),
   ("recommendations", recommendations),
   ("analysis_timestamp", .str timestamp),
   ("data_source", .str "youtube_api_v3")]

/-- The fresh-analysis path of analyze_channel: missing or empty channel
data short-circuits to the fallback; otherwise every stage runs (the
source calls get_channel_videos_safe twice with identical arguments; one
deterministic oracle draw covers both), the result dictionary is
assembled, saved, and passed through unify_data_sources. -/
def livePath (env : AnalyzerEnv) (channel_id : String) : Except Unit Obj :=
  env.channelData.bind fun channelDataOpt =>
  match channelDataOpt with
  | none => .ok (get_enhanced_fallback_analysis channel_id)
  | some channel_data =>
    if channel_data.isEmpty then .ok (get_enhanced_fallback_analysis channel_id)
    else
      env.videosData.bind fun _videos_data =>
      env.engagement.bind fun engagement_metrics =>
      env.contentAnalysis.bind fun content_analysis =>
      env.performance.bind fun performance_metrics =>
      env.aiMetrics.bind fun ai_metrics =>
      env.demographics.bind fun demographics =>
      env.insights.bind fun insights =>
      env.predictions.bind fun predictions =>
      env.recommendations.bind fun recommendations =>
      env.growthMetrics.bind fun growth_metrics =>
      env.saveResult.bind fun _ =>
      unify_data_sources (liveAnalysisDict channel_data engagement_metrics
        performance_metrics content_analysis growth_metrics ai_metrics
        demographics insights predictions recommendations env.timestamp)

/-- analyze_channel: consult the cache unless forced, otherwise run the
live path; any uncaught error in the body lands in the except handler,
which returns the static fallback analysis. -/
def analyze_channel (env : AnalyzerEnv) (channel_id : String) (force_refresh : Bool) : Obj :=
  let body : Except Unit Obj :=
    match (if force_refresh then none else get_recent_analysis_safe env) with
    | some recent_analysis =>
      if recent_analysis.isEmpty then livePath env channel_id else .ok recent_analysis
    | none => livePath env channel_id
  match body with
  | .ok analysis => analysis
  | .error _ => get_enhanced_fallback_analysis channel_id

/-- The sections of the Analysis contract shared by all three data-source
levels (the live path additionally carries growth_metrics and a
timestamp). -/
def analysisSections : List String :=
  ["channel_metrics", "engagement_metrics", "performance_metrics",
   "content_analysis", "ai_enhanced_metrics", "demographics",
   "ai_insights", "growth_predictions", "recommendations", "data_source"]

/-- Key membership in an analysis dictionary. -/
def hasKey (o : Obj) (k : String) : Bool := (List.lookup k o).isSome

/-! ## Shared lemmas -/

lemma pyRound_intCast (z : ℤ) : pyRound (z : ℚ) = z := by
  unfold pyRound
  rw [Int.fract_intCast]
  norm_num

lemma pyRoundTo_intCast (d : ℕ) (z : ℤ) : pyRoundTo d (z : ℚ) = z := by
  unfold pyRoundTo
  have h : (z : ℚ) * 10 ^ d = ((z * 10 ^ d : ℤ) : ℚ) := by push_cast; ring
  rw [h, pyRound_intCast]
  push_cast
  field_simp

lemma pyRoundR_intCast (z : ℤ) : pyRoundR (z : ℝ) = z := by
  unfold pyRoundR
  rw [Int.fract_intCast]
  norm_num

lemma pyRoundToR_intCast (d : ℕ) (z : ℤ) : pyRoundToR d (z : ℝ) = z := by
  unfold pyRoundToR
  have h : (z : ℝ) * 10 ^ d = ((z * 10 ^ d : ℤ) : ℝ) := by push_cast; ring
  rw [h, pyRoundR_intCast]
  push_cast
  field_simp

lemma qmean_replicate {n : ℕ} (hn : n ≠ 0) (x : ℚ) :
    qmean (List.replicate n x) = x := by
  unfold qmean
  rw [List.sum_replicate, List.length_replicate, nsmul_eq_mul]
  field_simp

/-! ## C10: credential-pool rotation -/

lemma rotateYoutubeKey_of_nonneg (n : ℕ) (i : ℤ) (hi : 0 ≤ i) :
    rotateYoutubeKey n i = (i + 1) % n := by
  unfold rotateYoutubeKey
  rw [if_neg (by omega)]

lemma rotateYoutubeKey_iterate (n : ℕ) (hn : 0 < n) (i : ℤ)
    (h0 : 0 ≤ i) (h1 : i < n) :
    ∀ k : ℕ, (rotateYoutubeKey n)^[k] i = (i + k) % (n : ℤ)
  | 0 => by
      simp [Int.emod_eq_of_lt h0 h1]
  | (k + 1) => by
      have hne : (n : ℤ) ≠ 0 := by exact_mod_cast hn.ne'
      rw [Function.iterate_succ_apply', rotateYoutubeKey_iterate n hn i h0 h1 k,
        rotateYoutubeKey_of_nonneg n _ (Int.emod_nonneg _ hne),
        Int.emod_add_emod]
      push_cast
      ring_nf

/-- C10 (corrected).  The video-data-provider rotation _rotate_youtube_key
is circular and deterministic: starting from any valid cursor i, applying
it pool-size-many times returns the cursor to i, and advancing from the
last slot wraps to the first.  The text-generation-provider rotation
_rotate_groq_key is not circular: wrapping past the last slot yields the
exhaustion sentinel -1 (with key None), so pool-size-many rotations from
slot 0 end at -1, not 0. -/
theorem rotation_circular_youtube_but_not_groq :
    (∀ (n : ℕ) (i : ℤ), 0 < n → 0 ≤ i → i < n →
      (rotateYoutubeKey n)^[n] i = i) ∧
    (∀ n : ℕ, 0 < n → rotateYoutubeKey n ((n : ℤ) - 1) = 0) ∧
    (∀ n : ℕ, 0 < n → (rotateGroqKey n)^[n] 0 = -1) := by
  refine ⟨?_, ?_, ?_⟩
  · intro n i hn h0 h1
    rw [rotateYoutubeKey_iterate n hn i h0 h1 n]
    have h2 : (i + (n : ℤ)) % (n : ℤ) = i % (n : ℤ) := by
      conv_lhs => rw [show i + (n : ℤ) = i + (n : ℤ) * 1 by ring]
      exact Int.add_mul_emod_self_left i (n : ℤ) 1
    rw [h2, Int.emod_eq_of_lt h0 h1]
  · intro n hn
    unfold rotateYoutubeKey
    rw [if_neg (by omega)]
    have h3 : ((n : ℤ) - 1 + 1) = (n : ℤ) := by ring
    rw [h3, Int.emod_self]
  · intro n hn
    have step : ∀ k : ℕ, k < n → (rotateGroqKey n)^[k] 0 = k := by
      intro k
      induction k with
      | zero => intro _; simp
      | succ k ih =>
        intro hk
        rw [Function.iterate_succ_apply', ih (by omega)]
        have h1 : ((k : ℤ) + 1) % (n : ℤ) = (k : ℤ) + 1 :=
          Int.emod_eq_of_lt (by omega) (by exact_mod_cast hk)
        have h2 : ((k : ℤ) + 1) ≠ 0 := by omega
        simp [rotateGroqKey, h1, h2]
    obtain ⟨m, rfl⟩ : ∃ m, n = m + 1 := ⟨n - 1, by omega⟩
    rw [Function.iterate_succ_apply', step m (by omega)]
    have h4 : ((m : ℤ) + 1) % (((m + 1 : ℕ) : ℤ)) = 0 := by
      have h5 : (((m + 1 : ℕ) : ℤ)) = (m : ℤ) + 1 := by push_cast; ring
      rw [h5, Int.emod_self]
    have h6 : ((m : ℤ)) ≠ -1 := by omega
    simp [rotateGroqKey, h4, h6]

/-- C10 witness: three rotations of a three-key YouTube pool starting at
cursor 1 return the cursor to 1. -/
theorem rotation_circular_youtube_but_not_groq_witness :
    (rotateYoutubeKey 3)^[3] 1 = 1 :=
  rotation_circular_youtube_but_not_groq.1 3 1 (by norm_num) (by norm_num) (by norm_num)

/-- C10 counterexample: on a two-key Groq pool, two rotations from cursor
0 end at the exhaustion sentinel -1, not back at 0, refuting circularity
for the text-generation-provider pool. -/
theorem groq_rotation_not_circular :
    rotateGroqKey 2 (rotateGroqKey 2 0) = -1 ∧ (-1 : ℤ) ≠ 0 := by
  constructor
  · decide
  · decide

/-! ## C7: scenario A (viral ratio and growth potential) -/

/-- C7 (confirmed).  With 1,000,000 subscribers and a 50,000,000-view top
video, whatever the remaining inputs, calculate_ai_enhanced_metrics
reports a viral ratio of exactly 50.0 and, because 1,000,000 subscribers
fall in the large (not mega) bucket, resolves growth potential through
the standard threshold table to High. -/
theorem scenario_a_viral_ratio_and_growth :
    ∀ (engagement_rate consistency content_diversity : ℚ) (performance_trend : String),
      (calculate_ai_enhanced_metrics 1000000 engagement_rate 50000000
        consistency content_diversity performance_trend).viral_ratio = 50 ∧
      (calculate_ai_enhanced_metrics 1000000 engagement_rate 50000000
        consistency content_diversity performance_trend).growth_potential = "High" ∧
      assess_channel_scale 1000000 = "large" := by
  intro engagement_rate consistency content_diversity performance_trend
  have hscale : assess_channel_scale ((1000000 : ℤ) : ℚ) = "large" := by
    unfold assess_channel_scale
    norm_num
  have hviral : ((50000000 : ℤ) : ℚ) / max ((1000000 : ℤ) : ℚ) 1 = 50 := by
    norm_num
  refine ⟨?_, ?_, by unfold assess_channel_scale; norm_num⟩
  · simp only [calculate_ai_enhanced_metrics, hviral]
    have h50 : (50 : ℚ) = ((50 : ℤ) : ℚ) := by norm_num
    rw [h50, pyRoundTo_intCast]
  · simp only [calculate_ai_enhanced_metrics, hviral, hscale]
    rw [if_neg (show ¬(("large" : String) = "mega") from by decide),
      if_pos (Or.inl (show (20 : ℚ) < 50 from by norm_num))]

/-! ## C9: duration parsing -/

lemma takeDigits_digits_append (ds rest : List Char)
    (hds : ∀ c ∈ ds, c.isDigit)
    (hrest : ∀ c cs, rest = c :: cs → c.isDigit = false) :
    takeDigits (ds ++ rest) = (ds, rest) := by
  induction ds with
  | nil =>
    cases rest with
    | nil => rfl
    | cons c cs =>
      simp only [List.nil_append, takeDigits]
      rw [hrest c cs rfl]
      simp
  | cons d ds ih =>
    have hd : d.isDigit := hds d (by simp)
    simp only [List.cons_append, takeDigits, hd, if_true, List.append_eq]
    rw [ih (fun c hc => hds c (by simp [hc]))]

lemma parseComponent_eat (letter : Char) (ds rest : List Char)
    (h1 : ds ≠ []) (h2 : ∀ c ∈ ds, c.isDigit) (hl : letter.isDigit = false) :
    parseComponent letter (ds ++ letter :: rest) = (some (digitsVal ds), rest) := by
  unfold parseComponent
  rw [takeDigits_digits_append ds (letter :: rest) h2
    (by intro c cs h; cases h; exact hl)]
  simp [h1]

lemma parseComponent_wrong (letter : Char) (ds : List Char) (c : Char) (rest : List Char)
    (hds : ∀ x ∈ ds, x.isDigit) (hc : c.isDigit = false) (hne : c ≠ letter) :
    parseComponent letter (ds ++ c :: rest) = (none, ds ++ c :: rest) := by
  unfold parseComponent
  rw [takeDigits_digits_append ds (c :: rest) hds
    (by intro x xs h; cases h; exact hc)]
  simp [hne]

lemma parseComponent_nil (letter : Char) : parseComponent letter [] = (none, []) := rfl

/-- C9 (confirmed).  parse_duration maps every well-formed token with any
subset of the H/M/S components to its total seconds, maps the scenario-C
tokens PT1H2M3S and PT45S to 3723 and 45, and maps malformed or empty
tokens (anything that does not start with PT, such as garbage) to 0,
without raising. -/
theorem parse_duration_correct :
    (∀ h m s : Option (List Char),
      (∀ ds, h = some ds → IsDigits ds) →
      (∀ ds, m = some ds → IsDigits ds) →
      (∀ ds, s = some ds → IsDigits ds) →
      parse_duration (durationToken h m s) =
        3600 * h.elim 0 digitsVal + 60 * m.elim 0 digitsVal + s.elim 0 digitsVal) ∧
    parse_duration "PT1H2M3S" = 3723 ∧
    parse_duration "PT45S" = 45 ∧
    parse_duration "garbage" = 0 ∧
    parse_duration "" = 0 ∧
    (∀ t : String, (∀ cs, t.data ≠ 'P' :: 'T' :: cs) → parse_duration t = 0) := by
  have hH : ('H').isDigit = false := by decide
  have hM : ('M').isDigit = false := by decide
  have hS : ('S').isDigit = false := by decide
  have hHM : ('M') ≠ 'H' := by decide
  have hHS : ('S') ≠ 'H' := by decide
  have hMS : ('S') ≠ 'M' := by decide
  refine ⟨?_, by decide, by decide, by decide, by decide, ?_⟩
  · intro h m s hh hm hs
    rcases h with _ | hds <;> rcases m with _ | mds <;> rcases s with _ | sds <;>
      simp only [durationToken, Option.elim, List.append_assoc, List.singleton_append,
        List.cons_append, List.nil_append, List.append_nil]
    · -- no components: PT alone
      simp [parse_duration, parseComponent_nil]
    · -- seconds only
      obtain ⟨hs1, hs2⟩ := hs sds rfl
      have e1 := parseComponent_wrong 'H' sds 'S' [] hs2 hS hHS
      have e2 := parseComponent_wrong 'M' sds 'S' [] hs2 hS hMS
      have e3 := parseComponent_eat 'S' sds [] hs1 hs2 hS
      simp [parse_duration, e1, e2, e3]
    · -- minutes only
      obtain ⟨hm1, hm2⟩ := hm mds rfl
      have e1 := parseComponent_wrong 'H' mds 'M' [] hm2 hM hHM
      have e2 := parseComponent_eat 'M' mds [] hm1 hm2 hM
      have e3 := parseComponent_nil 'S'
      simp [parse_duration, e1, e2, e3]
      ring
    · -- minutes and seconds
      obtain ⟨hm1, hm2⟩ := hm mds rfl
      obtain ⟨hs1, hs2⟩ := hs sds rfl
      have e1 := parseComponent_wrong 'H' mds 'M' (sds ++ ['S']) hm2 hM hHM
      have e2 := parseComponent_eat 'M' mds (sds ++ ['S']) hm1 hm2 hM
      have e3 := parseComponent_eat 'S' sds [] hs1 hs2 hS
      simp only [List.singleton_append] at e1 e2 e3
      simp [parse_duration, e1, e2, e3]
      ring
    · -- hours only
      obtain ⟨hh1, hh2⟩ := hh hds rfl
      have e1 := parseComponent_eat 'H' hds [] hh1 hh2 hH
      have e2 := parseComponent_nil 'M'
      have e3 := parseComponent_nil 'S'
      simp [parse_duration, e1, e2, e3]
      ring
    · -- hours and seconds
      obtain ⟨hh1, hh2⟩ := hh hds rfl
      obtain ⟨hs1, hs2⟩ := hs sds rfl
      have e1 := parseComponent_eat 'H' hds (sds ++ ['S']) hh1 hh2 hH
      have e2 := parseComponent_wrong 'M' sds 'S' [] hs2 hS hMS
      have e3 := parseComponent_eat 'S' sds [] hs1 hs2 hS
      simp only [List.singleton_append] at e1 e2 e3
      simp [parse_duration, e1, e2, e3]
      ring
    · -- hours and minutes
      obtain ⟨hh1, hh2⟩ := hh hds rfl
      obtain ⟨hm1, hm2⟩ := hm mds rfl
      have e1 := parseComponent_eat 'H' hds (mds ++ ['M']) hh1 hh2 hH
      have e2 := parseComponent_eat 'M' mds [] hm1 hm2 hM
      have e3 := parseComponent_nil 'S'
      simp only [List.singleton_append] at e1 e2 e3
      simp [parse_duration, e1, e2, e3]
      ring
    · -- all three components
      obtain ⟨hh1, hh2⟩ := hh hds rfl
      obtain ⟨hm1, hm2⟩ := hm mds rfl
      obtain ⟨hs1, hs2⟩ := hs sds rfl
      have e1 := parseComponent_eat 'H' hds (mds ++ 'M' :: (sds ++ ['S'])) hh1 hh2 hH
      have e2 := parseComponent_eat 'M' mds (sds ++ ['S']) hm1 hm2 hM
      have e3 := parseComponent_eat 'S' sds [] hs1 hs2 hS
      simp only [List.singleton_append] at e1 e2 e3
      simp [parse_duration, e1, e2, e3]
      ring
  · intro t ht
    unfold parse_duration
    rcases hd : t.data with _ | ⟨c, cs⟩
    · rfl
    · rcases cs with _ | ⟨c2, cs2⟩
      · rcases c with ⟨cv⟩
        simp only []
        split
        · rename_i heq
          exact absurd heq (by intro h; cases h)
        · rfl
      · by_cases h1 : c = 'P' <;> by_cases h2 : c2 = 'T'
        · subst h1; subst h2; exact absurd hd (by intro h; exact ht cs2 h)
        · subst h1
          split
          · rename_i heq; injection heq with _ heq2; injection heq2 with hT _; exact absurd hT h2
          · rfl
        · split
          · rename_i heq; injection heq with hP _; exact absurd hP h1
          · rfl
        · split
          · rename_i heq; injection heq with hP _; exact absurd hP h1
          · rfl

/-- C9 witness: the general component theorem applied to the digit
strings 1, 2 and 3 yields 3723 seconds. -/
theorem parse_duration_correct_witness :
    parse_duration (durationToken (some ['1']) (some ['2']) (some ['3'])) = 3723 := by
  rw [parse_duration_correct.1 (some ['1']) (some ['2']) (some ['3'])
    (by intro ds h; cases h; exact ⟨by decide, by decide⟩)
    (by intro ds h; cases h; exact ⟨by decide, by decide⟩)
    (by intro ds h; cases h; exact ⟨by decide, by decide⟩)]
  decide

/-! ## C8: performance-trend classification -/

/-- C8 (confirmed).  With fewer than 5 scores the trend is Insufficient
Data; otherwise only the first 10 scores are used, split at the midpoint
into a newer prefix and an older suffix, and (whenever the older mean is
nonzero, so the percentage change exists) the label is the ordered
threshold table applied to the percentage change of the newer mean over
the older mean. -/
theorem trend_classification :
    ∀ l : List ℚ,
      (l.length < 5 → analyze_performance_trend_enhanced l = "Insufficient Data") ∧
      (5 ≤ l.length →
        qmean ((l.take 10).drop ((l.take 10).length / 2)) ≠ 0 →
        analyze_performance_trend_enhanced l =
          trendLabel ((qmean ((l.take 10).take ((l.take 10).length / 2)) -
              qmean ((l.take 10).drop ((l.take 10).length / 2))) /
            qmean ((l.take 10).drop ((l.take 10).length / 2)) * 100)) := by
  intro l
  constructor
  · intro h
    unfold analyze_performance_trend_enhanced
    rw [if_pos h]
  · intro h5 hmean
    have htake : l.take (min 10 l.length) = l.take 10 := by
      rw [← List.take_take, List.take_length]
    have hlen : (l.take 10).length = min 10 l.length := List.length_take 10 l
    have hfirst : (l.take 10).drop ((l.take 10).length / 2) ≠ [] := by
      apply List.length_pos.mp
      rw [List.length_drop]
      omega
    have hsecond : (l.take 10).take ((l.take 10).length / 2) ≠ [] := by
      apply List.length_pos.mp
      rw [List.length_take]
      omega
    simp only [analyze_performance_trend_enhanced, htake, trendLabel]
    rw [if_neg (by omega), if_neg (by omega), if_pos hfirst, if_pos hsecond,
      if_neg hmean]

/-- C8 witness: five scores whose newer half ([10, 10]) exceeds the older
half ([1, 1, 1]) by 900 percent classify as Explosive Growth. -/
theorem trend_classification_witness :
    analyze_performance_trend_enhanced [10, 10, 1, 1, 1] = "Explosive Growth" := by
  have h := (trend_classification [10, 10, 1, 1, 1]).2 (by norm_num)
    (by norm_num [qmean])
  rw [h]
  norm_num [qmean, trendLabel]

/-! ## C5: consistency score -/

/-- C5 counterexample: on the two-value list [100, 300] the source
returns the fixed small-sample value 70, while the claimed coefficient-
of-variation formula (cv = 50, regime 50 <= cv < 100, 70 - cv/4) yields
57.5, so the claimed formula does not govern every list of 2 or more
values. -/
theorem consistency_two_values_counterexample :
    calculate_consistency [100, 300] = 70 ∧
    claimedConsistency [100, 300] = 115/2 ∧
    (70 : ℝ) ≠ 115/2 := by
  refine ⟨?_, ?_, by norm_num⟩
  · unfold calculate_consistency
    norm_num
  · have h1 : qmean [(100 : ℚ), 300] = 200 := by norm_num [qmean]
    have h2 : qvariance [(100 : ℚ), 300] = 10000 := by
      unfold qvariance
      simp only [h1]
      norm_num [qmean]
    have h3 : Real.sqrt ((qvariance [(100 : ℚ), 300] : ℚ) : ℝ) = 100 := by
      rw [h2]
      rw [show (((10000 : ℚ) : ℝ)) = (100 : ℝ) ^ 2 by norm_num]
      exact Real.sqrt_sq (by norm_num)
    unfold claimedConsistency
    rw [if_neg (by norm_num)]
    simp only [h3, h1]
    norm_num

/-- C5 (corrected).  calculate_consistency returns the fixed default 75
below 2 data points; exactly 2 data points return the small-sample value
70 (not the claimed cv formula); with 3 or more points a zero mean
returns 65 and a nonzero mean follows exactly the claimed piecewise
cv mapping clamped to [20, 95]; 10 identical nonzero values score 85
with no division-by-zero failure; and a non-empty collection of at most
2 videos has both engagement consistency scores floored at 60. -/
theorem consistency_piecewise :
    (∀ values : List ℚ, values.length < 2 → calculate_consistency values = 75) ∧
    (∀ values : List ℚ, values.length = 2 → calculate_consistency values = 70) ∧
    (∀ values : List ℚ, 3 ≤ values.length → qmean values = 0 →
      calculate_consistency values = 65) ∧
    (∀ values : List ℚ, 3 ≤ values.length → qmean values ≠ 0 →
      calculate_consistency values = claimedConsistency values) ∧
    (∀ x : ℚ, x ≠ 0 → calculate_consistency (List.replicate 10 x) = 85) ∧
    (∀ items : List Video, items ≠ [] → items.length < 3 →
      60 ≤ (calculate_comprehensive_engagement items).engagement_consistency ∧
      60 ≤ (calculate_comprehensive_engagement items).performance_consistency) := by
  refine ⟨?_, ?_, ?_, ?_, ?_, ?_⟩
  · intro values h
    unfold calculate_consistency
    rw [if_pos h]
  · intro values h
    unfold calculate_consistency
    rw [if_neg (by omega), if_neg (by omega)]
  · intro values h3 hzero
    unfold calculate_consistency
    rw [if_neg (by omega), if_pos h3, if_pos hzero]
  · intro values h3 hmean
    unfold calculate_consistency claimedConsistency
    rw [if_neg (show ¬(values.length < 2) by omega), if_pos h3, if_neg hmean,
      if_neg (show ¬(values.length < 2) by omega)]
  · intro x hx
    have hm : qmean (List.replicate 10 x) = x := qmean_replicate (by norm_num) x
    have hv : qvariance (List.replicate 10 x) = 0 := by
      unfold qvariance
      simp only [hm, List.map_replicate, sub_self]
      norm_num [qmean_replicate (show (10 : ℕ) ≠ 0 by norm_num)]
    unfold calculate_consistency
    rw [if_neg (by simp), if_pos (by simp), if_neg (by rw [hm]; exact hx)]
    rw [hv, hm]
    norm_num
  · intro items hne hlen
    match items, hne with
    | v :: rest, _ =>
      simp only [calculate_comprehensive_engagement]
      constructor
      · rw [if_pos hlen]
        exact le_max_right _ _
      · rw [if_pos hlen]
        exact le_max_right _ _

/-- C5 witness: ten identical values 1 give consistency 85 through the
cv = 0 branch. -/
theorem consistency_piecewise_witness :
    calculate_consistency (List.replicate 10 1) = 85 :=
  consistency_piecewise.2.2.2.2.1 1 one_ne_zero

/-! ## C3: videos_analyzed and empty-collection defaults -/

/-- C3 counterexample: the empty collection returns the default record
whose top-performing-video title is the empty string, not the claimed
"Unknown", so not every textual field of the empty-collection result is
"Unknown". -/
theorem engagement_empty_title_counterexample :
    (calculate_comprehensive_engagement []).top_performing_video_title = "" ∧
    "" ≠ "Unknown" := by
  exact ⟨rfl, by decide⟩

/-- C3 (corrected).  videos_analyzed always equals the input collection
length; the empty collection takes the default record without failing,
whose numeric fields are all zero, whose engagement-health label (and
every textual field of the corresponding PerformanceMetrics defaults) is
"Unknown", but whose top-performing-video title is the empty string. -/
theorem engagement_count_and_empty_defaults :
    (∀ items : List Video,
      (calculate_comprehensive_engagement items).videos_analyzed = items.length) ∧
    calculate_comprehensive_engagement [] = get_default_engagement_metrics ∧
    (get_default_engagement_metrics.total_recent_views = 0 ∧
      get_default_engagement_metrics.total_recent_likes = 0 ∧
      get_default_engagement_metrics.total_recent_comments = 0 ∧
      get_default_engagement_metrics.total_engagement = 0 ∧
      get_default_engagement_metrics.avg_engagement_rate = 0 ∧
      get_default_engagement_metrics.engagement_consistency = 0 ∧
      get_default_engagement_metrics.avg_views_per_video = 0 ∧
      get_default_engagement_metrics.avg_likes_per_video = 0 ∧
      get_default_engagement_metrics.avg_comments_per_video = 0 ∧
      get_default_engagement_metrics.views_std_dev = 0 ∧
      get_default_engagement_metrics.performance_consistency = 0 ∧
      get_default_engagement_metrics.top_performing_video_views = 0 ∧
      get_default_engagement_metrics.top_performing_video_likes = 0 ∧
      get_default_engagement_metrics.videos_analyzed = 0 ∧
      get_default_engagement_metrics.engagement_health = "Unknown" ∧
      get_default_engagement_metrics.top_performing_video_title = "") ∧
    (get_default_performance_metrics.avg_duration_seconds = 0 ∧
      get_default_performance_metrics.avg_performance_score = 0 ∧
      get_default_performance_metrics.duration_consistency = 0 ∧
      get_default_performance_metrics.estimated_retention_rate = 0 ∧
      get_default_performance_metrics.content_velocity_score = 0 ∧
      get_default_performance_metrics.optimal_video_length = "Unknown" ∧
      get_default_performance_metrics.performance_trend = "Unknown") := by
  refine ⟨?_, rfl, ?_, ?_⟩
  · intro items
    cases items <;> rfl
  · exact ⟨rfl, rfl, rfl, rfl, rfl, rfl, rfl, rfl, rfl, rfl, rfl, rfl, rfl, rfl, rfl, rfl⟩
  · exact ⟨rfl, rfl, rfl, rfl, rfl, rfl, rfl⟩

/-! ## C4: top performing video is the first element -/

/-- C4 (confirmed).  On any non-empty collection sorted descending by
view count, the top-performing-video fields of the engagement aggregate
are exactly the fields of the first element: the source never re-scans
the collection. -/
theorem top_video_is_first :
    ∀ (v : Video) (rest : List Video),
      List.Chain' (fun a b => b.viewCount ≤ a.viewCount) (v :: rest) →
      (calculate_comprehensive_engagement (v :: rest)).top_performing_video_views = v.viewCount ∧
      (calculate_comprehensive_engagement (v :: rest)).top_performing_video_likes = v.likeCount ∧
      (calculate_comprehensive_engagement (v :: rest)).top_performing_video_title = v.title ∧
      (calculate_comprehensive_engagement (v :: rest)).top_performing_video_thumbnail =
        v.thumbnail_url ∧
      (calculate_comprehensive_engagement (v :: rest)).top_performing_video_id = v.id := by
  intro v rest _
  exact ⟨rfl, rfl, rfl, rfl, rfl⟩

/-- C4 witness: a concrete two-video collection sorted descending by
views reports the first video as top performer. -/
theorem top_video_is_first_witness :
    (calculate_comprehensive_engagement
      [⟨100, 5, 2, "PT1M", "a", none, none⟩,
       ⟨50, 1, 1, "PT2M", "b", none, none⟩]).top_performing_video_views = 100 :=
  (top_video_is_first ⟨100, 5, 2, "PT1M", "a", none, none⟩
    [⟨50, 1, 1, "PT2M", "b", none, none⟩]
    (List.chain'_cons.mpr ⟨by norm_num, List.chain'_singleton _⟩)).1

/-! ## C6: content-diversity score -/

lemma list_filter_replicate {α : Type} (n : ℕ) (a : α) (q : α → Bool) :
    (List.replicate n a).filter q = if q a then List.replicate n a else [] := by
  induction n with
  | zero => simp
  | succ n ih =>
    rw [List.replicate_succ, List.filter_cons, ih]
    by_cases h : q a <;> simp [h, List.replicate_succ]

lemma diversity_single (label : String) (c : ℚ) (hc : 0 < c) :
    calculate_diversity_score_enhanced [(label, c)] = 10 := by
  simp only [calculate_diversity_score_enhanced]
  rw [if_neg (by simp)]
  have hsum : ([(label, c)].map Prod.snd).sum = c := by simp
  rw [hsum, if_neg hc.ne']
  have hp : [(label, c)].map (fun kv => kv.2 / c) = [1] := by
    simp [div_self hc.ne']
  rw [hp]
  norm_num [List.filter, Real.log_one]
  rw [show (10 : ℝ) = ((10 : ℤ) : ℝ) by norm_num, pyRoundToR_intCast]

lemma diversity_even (labels : List String) (c : ℚ) (h2 : 2 ≤ labels.length)
    (hc : 0 < c) :
    calculate_diversity_score_enhanced (labels.map (fun lab => (lab, c))) = 100 := by
  have h0 : 0 < labels.length := by omega
  have hnq : ((labels.length : ℚ)) ≠ 0 := Nat.cast_ne_zero.mpr h0.ne'
  have hnr : (1 : ℝ) < (labels.length : ℝ) := by
    exact_mod_cast (by omega : 1 < labels.length)
  have hlab_ne : labels ≠ [] := by
    intro hh
    rw [hh] at h2
    simp at h2
  have hne : (labels.map (fun lab => (lab, c))) ≠ [] := by simpa using hlab_ne
  have hmap : (labels.map (fun lab => (lab, c))).map Prod.snd =
      List.replicate labels.length c := by
    rw [List.map_map]
    exact List.map_const' labels c
  have hsum : ((labels.map (fun lab => (lab, c))).map Prod.snd).sum =
      (labels.length : ℚ) * c := by
    rw [hmap, List.sum_replicate, nsmul_eq_mul]
  have hlen : (labels.map (fun lab => (lab, c))).length = labels.length := by simp
  have hsne : (labels.length : ℚ) * c ≠ 0 := mul_ne_zero hnq hc.ne'
  have hprop : (labels.map (fun lab => (lab, c))).map
      (fun kv => kv.2 / ((labels.length : ℚ) * c)) =
      List.replicate labels.length ((1 : ℚ) / (labels.length : ℚ)) := by
    rw [List.map_map]
    have hdiv : (fun lab : String => c / ((labels.length : ℚ) * c)) =
        fun _ => (1 : ℚ) / (labels.length : ℚ) := by
      funext lab
      rw [div_eq_div_iff (by positivity) (by positivity)]
      ring
    show labels.map (fun lab => c / ((labels.length : ℚ) * c)) = _
    rw [hdiv]
    exact List.map_const' labels _
  simp only [calculate_diversity_score_enhanced]
  rw [if_neg hne, hsum, if_neg hsne, hlen, hprop]
  have hppos : (0 : ℚ) < (1 : ℚ) / (labels.length : ℚ) := by positivity
  have hdec : decide ((0 : ℚ) < (1 : ℚ) / (labels.length : ℚ)) = true :=
    decide_eq_true hppos
  rw [list_filter_replicate]
  rw [if_pos hdec]
  rw [List.map_replicate, List.sum_replicate, nsmul_eq_mul]
  have hcast : (((1 : ℚ) / (labels.length : ℚ) : ℚ) : ℝ) = ((labels.length : ℝ))⁻¹ := by
    push_cast
    rw [one_div]
  rw [hcast]
  have hlr : (labels.length : ℝ) ≠ 0 := by positivity
  have hentropy : -((labels.length : ℝ) *
      (((labels.length : ℝ))⁻¹ * Real.log ((labels.length : ℝ))⁻¹)) =
      Real.log (labels.length : ℝ) := by
    rw [Real.log_inv]
    field_simp
  rw [hentropy]
  have hlogpos : 0 < Real.log (labels.length : ℝ) := Real.log_pos hnr
  rw [if_pos hlogpos, div_self hlogpos.ne']
  have hmin : ∀ b : ℕ, min ((1 : ℝ) * 100 + (b : ℝ)) 100 = 100 := by
    intro b
    apply min_eq_right
    have : (0 : ℝ) ≤ (b : ℝ) := Nat.cast_nonneg b
    linarith
  rw [hmin]
  rw [show (100 : ℝ) = ((100 : ℤ) : ℝ) by norm_num, pyRoundToR_intCast]

lemma diversity_label_invariant (l1 l2 : List (String × ℚ))
    (h : l1.map Prod.snd = l2.map Prod.snd) :
    calculate_diversity_score_enhanced l1 = calculate_diversity_score_enhanced l2 := by
  have hlen : l1.length = l2.length := by
    have := congrArg List.length h
    simpa using this
  by_cases h1 : l1 = []
  · have h2 : l2 = [] := by
      have := hlen
      rw [h1] at this
      exact (List.length_eq_zero.mp this.symm)

    rw [h1, h2]
  · have h2 : l2 ≠ [] := by
      intro hh
      apply h1
      rw [hh] at hlen
      exact List.length_eq_zero.mp (by simpa using hlen)
    have hprop : ∀ t : ℚ, l1.map (fun kv => kv.2 / t) = l2.map (fun kv => kv.2 / t) := by
      intro t
      have e1 : l1.map (fun kv => kv.2 / t) = (l1.map Prod.snd).map (fun x => x / t) := by
        rw [List.map_map]
        rfl
      have e2 : l2.map (fun kv => kv.2 / t) = (l2.map Prod.snd).map (fun x => x / t) := by
        rw [List.map_map]
        rfl
      rw [e1, e2, h]
    simp only [calculate_diversity_score_enhanced]
    rw [if_neg h1, if_neg h2, h, hlen, hprop ((l2.map Prod.snd).sum)]

/-- C6 counterexample: a distribution concentrated in the single category
x scores 10 (zero entropy term plus the 10-point balance bonus for its
100 percent share), not the claimed 0. -/
theorem diversity_single_category_counterexample :
    calculate_diversity_score_enhanced [("x", 5)] = 10 ∧ (10 : ℝ) ≠ 0 :=
  ⟨diversity_single "x" 5 (by norm_num), by norm_num⟩

/-- C6 (corrected).  The content-diversity score is 10 for every
distribution concentrated in a single category (the entropy term is 0 but
the balance bonus contributes 10 for the single 100-percent share), is
exactly 100 for every even distribution over at least two categories, and
is invariant under renaming of the category labels (it depends only on
the list of proportions). -/
theorem diversity_properties :
    (∀ (label : String) (c : ℚ), 0 < c →
      calculate_diversity_score_enhanced [(label, c)] = 10) ∧
    (∀ (labels : List String) (c : ℚ), 2 ≤ labels.length → 0 < c →
      calculate_diversity_score_enhanced (labels.map (fun lab => (lab, c))) = 100) ∧
    (∀ l1 l2 : List (String × ℚ), l1.map Prod.snd = l2.map Prod.snd →
      calculate_diversity_score_enhanced l1 = calculate_diversity_score_enhanced l2) :=
  ⟨diversity_single, diversity_even, diversity_label_invariant⟩

/-- C6 witness: two evenly weighted categories score exactly 100. -/
theorem diversity_properties_witness :
    calculate_diversity_score_enhanced [("a", 1), ("b", 1)] = 100 := by
  have h := diversity_properties.2.1 ["a", "b"] 1 (by norm_num) (by norm_num)
  simpa using h

/-! ## C2: insight and recommendation counts -/

lemma enhanced_rule_based_insights_length (subscribers top_video_views : ℤ)
    (engagement_rate : ℚ) (top_video_title : Option String) (optimal_length : String) :
    (generate_enhanced_rule_based_insights subscribers top_video_views
      engagement_rate top_video_title optimal_length).length = 3 := rfl

lemma public_rule_based_insights_length (subscribers top_video_views : ℤ)
    (engagement_rate : ℚ) (top_video_title : Option String) (content_diversity : ℚ) :
    (generate_public_rule_based_insights subscribers top_video_views
      engagement_rate top_video_title content_diversity).length = 3 := rfl

/-- C2 counterexample: when the text-generation provider returns six
parseable insights, the pipeline returns all six untruncated, so the
returned insights list does not always contain exactly 3 entries. -/
theorem insights_overproduction_counterexample :
    (generate_ai_insights_enhanced
      (.ok (generate_basic_insights_fallback ++ generate_basic_insights_fallback))
      0 0 0 none "Unknown").length = 6 ∧ (6 : ℕ) ≠ 3 := by
  constructor
  · rfl
  · decide

/-- C2 (corrected).  The recommendations list always contains exactly 3
entries (padding with the generic entry on underproduction, truncating on
overproduction).  The insights lists always contain at least 3 entries,
and when the provider underproduces (fewer than 3 raw items on the admin
path, or on every key of the public path) the deterministic rule-based
generator supplies exactly 3; but provider overproduction is returned
untruncated, so more than 3 insights can surface. -/
theorem insight_recommendation_counts :
    (∀ (subscribers : ℤ) (health_score content_diversity : ℚ),
      (generate_recommendations_enhanced subscribers health_score content_diversity).length
        = 3) ∧
    (∀ (o : Except Unit (List Insight)) (subs tv : ℤ) (er : ℚ)
        (tt : Option String) (ol : String),
      3 ≤ (generate_ai_insights_enhanced o subs tv er tt ol).length) ∧
    (∀ (l : List Insight) (subs tv : ℤ) (er : ℚ) (tt : Option String) (ol : String),
      l.length < 3 →
      generate_ai_insights_enhanced (.ok l) subs tv er tt ol =
        generate_enhanced_rule_based_insights subs tv er tt ol) ∧
    (∀ (ks : List (Option (List Insight))) (subs tv : ℤ) (er : ℚ)
        (tt : Option String) (cd : ℚ),
      3 ≤ (generate_groq_insights_public ks subs tv er tt cd).length) ∧
    (∀ (ks : List (Option (List Insight))) (subs tv : ℤ) (er : ℚ)
        (tt : Option String) (cd : ℚ),
      (∀ r ∈ ks, ∀ l, r = some l → l.length < 3) →
      generate_groq_insights_public ks subs tv er tt cd =
        generate_public_rule_based_insights subs tv er tt cd) := by
  refine ⟨?_, ?_, ?_, ?_, ?_⟩
  · intro subscribers health_score content_diversity
    simp only [generate_recommendations_enhanced]
    rw [List.length_take, List.length_append, List.length_replicate]
    omega
  · intro o subs tv er tt ol
    cases o with
    | error e =>
      simp only [generate_ai_insights_enhanced]
      rw [enhanced_rule_based_insights_length]
    | ok l =>
      by_cases h : l ≠ [] ∧ 3 ≤ l.length
      · simp only [generate_ai_insights_enhanced, if_pos h]
        exact h.2
      · simp only [generate_ai_insights_enhanced, if_neg h]
        rw [enhanced_rule_based_insights_length]
  · intro l subs tv er tt ol h
    simp only [generate_ai_insights_enhanced]
    rw [if_neg (by intro hh; omega)]
  · intro ks subs tv er tt cd
    induction ks with
    | nil =>
      simp only [generate_groq_insights_public]
      rw [public_rule_based_insights_length]
    | cons r rest ih =>
      cases r with
      | none => simpa [generate_groq_insights_public] using ih
      | some l =>
        by_cases h : 3 ≤ l.length
        · simp only [generate_groq_insights_public, if_pos h]
          exact h
        · simpa [generate_groq_insights_public, if_neg h] using ih
  · intro ks subs tv er tt cd hks
    induction ks with
    | nil => rfl
    | cons r rest ih =>
      have hrest : ∀ r ∈ rest, ∀ l, r = some l → l.length < 3 := by
        intro r hr l hl
        exact hks r (List.mem_cons_of_mem _ hr) l hl
      cases r with
      | none => simpa [generate_groq_insights_public] using ih hrest
      | some l =>
        have hl : l.length < 3 := hks (some l) (List.mem_cons_self _ _) l rfl
        simp only [generate_groq_insights_public]
        rw [if_neg (show ¬(3 ≤ l.length) by omega)]
        exact ih hrest

/-- C2 witness: an empty provider result on the admin path falls back to
the rule-based generator (hence exactly 3 insights). -/
theorem insight_recommendation_counts_witness :
    generate_ai_insights_enhanced (.ok []) 0 0 0 none "Unknown" =
      generate_enhanced_rule_based_insights 0 0 0 none "Unknown" :=
  insight_recommendation_counts.2.2.1 [] 0 0 0 none "Unknown" (by norm_num)

/-! ## C1: analyze_channel never raises and is structurally complete -/

lemma lookup_map_set_ne (o : Obj) (k k' : String) (v : Val) (h : k' ≠ k) :
    List.lookup k' (o.map (fun kv => if kv.1 = k then (k, v) else kv)) =
      List.lookup k' o := by
  induction o with
  | nil => rfl
  | cons kv t ih =>
    obtain ⟨k0, v0⟩ := kv
    by_cases hk0 : k0 = k
    · subst hk0
      have hbeq : (k' == k0) = false := beq_eq_false_iff_ne.mpr h
      have hif : (if (k0, v0).1 = k0 then (k0, v) else (k0, v0)) = (k0, v) := if_pos rfl
      simp only [List.map_cons, hif, List.lookup_cons, hbeq, if_true]
      exact ih
    · have hif : (if (k0, v0).1 = k then (k, v) else (k0, v0)) = (k0, v0) := if_neg hk0
      simp only [List.map_cons, hif, List.lookup_cons]
      by_cases hk' : k' = k0
      · subst hk'
        simp
      · have hbeq : (k' == k0) = false := beq_eq_false_iff_ne.mpr hk'
        simp only [hbeq]
        exact ih

lemma lookup_append_single_ne (o : Obj) (k k' : String) (v : Val) (h : k' ≠ k) :
    List.lookup k' (o ++ [(k, v)]) = List.lookup k' o := by
  induction o with
  | nil =>
    have hbeq : (k' == k) = false := beq_eq_false_iff_ne.mpr h
    simp only [List.nil_append, List.lookup_cons, hbeq]
  | cons kv t ih =>
    obtain ⟨k0, v0⟩ := kv
    simp only [List.cons_append, List.lookup_cons]
    by_cases hk' : k' = k0
    · subst hk'
      simp
    · have hbeq : (k' == k0) = false := beq_eq_false_iff_ne.mpr hk'
      simp only [hbeq]
      exact ih

lemma lookup_dictSet_ne (o : Obj) (k k' : String) (v : Val) (h : k' ≠ k) :
    List.lookup k' (dictSet o k v) = List.lookup k' o := by
  unfold dictSet
  split
  · exact lookup_map_set_ne o k k' v h
  · exact lookup_append_single_ne o k k' v h

lemma hasKey_dictSet_self (o : Obj) (k : String) (v : Val) :
    hasKey (dictSet o k v) k = true := by
  unfold dictSet hasKey
  split
  · rename_i hany
    induction o with
    | nil => simp at hany
    | cons kv t ih =>
      obtain ⟨k0, v0⟩ := kv
      by_cases hk0 : k0 = k
      · subst hk0
        simp [List.lookup_cons]
      · simp only [List.map_cons, if_neg (show ¬((k0, v0).1 = k) from hk0),
          List.lookup_cons]
        have hany' : t.any (fun kv => kv.1 = k) = true := by
          simp only [List.any_cons] at hany
          rcases Bool.or_eq_true_iff.mp hany with h1 | h1
          · exact absurd (by simpa using h1) hk0
          · exact h1
        have hbeq : (k == k0) = false :=
          beq_eq_false_iff_ne.mpr (fun hh => hk0 hh.symm)
        simp only [hbeq]
        exact ih hany'
  · rename_i hany
    clear hany
    induction o with
    | nil => simp [List.lookup_cons]
    | cons kv t ih =>
      obtain ⟨k0, v0⟩ := kv
      simp only [List.cons_append, List.lookup_cons]
      by_cases hk' : k = k0
      · subst hk'
        simp
      · have hbeq : (k == k0) = false := beq_eq_false_iff_ne.mpr hk'
        simp only [hbeq]
        exact ih

lemma hasKey_dictSet_of (o : Obj) (k k' : String) (v : Val)
    (h : hasKey o k' = true) : hasKey (dictSet o k v) k' = true := by
  by_cases hk : k' = k
  · subst hk
    exact hasKey_dictSet_self o k' v
  · unfold hasKey
    rw [lookup_dictSet_ne o k k' v hk]
    exact h

lemma sections_fallback (cid : String) :
    ∀ k ∈ analysisSections, hasKey (get_enhanced_fallback_analysis cid) k = true := by
  intro k hk
  simp only [analysisSections, List.mem_cons, List.not_mem_nil, or_false] at hk
  rcases hk with rfl | rfl | rfl | rfl | rfl | rfl | rfl | rfl | rfl | rfl <;> rfl

lemma sections_convert (s : Obj) :
    ∀ k ∈ analysisSections, hasKey (convert_snapshot_to_analysis s) k = true := by
  intro k hk
  simp only [analysisSections, List.mem_cons, List.not_mem_nil, or_false] at hk
  rcases hk with rfl | rfl | rfl | rfl | rfl | rfl | rfl | rfl | rfl | rfl <;> rfl

lemma sections_live (cd : Obj) (em pm ca gm ai dem ins pred recs : Val) (ts : String) :
    ∀ k ∈ analysisSections,
      hasKey (liveAnalysisDict cd em pm ca gm ai dem ins pred recs ts) k = true := by
  intro k hk
  simp only [analysisSections, List.mem_cons, List.not_mem_nil, or_false] at hk
  rcases hk with rfl | rfl | rfl | rfl | rfl | rfl | rfl | rfl | rfl | rfl <;> rfl

lemma data_source_fallback (cid : String) :
    List.lookup "data_source" (get_enhanced_fallback_analysis cid) =
      some (.str "fallback") := rfl

lemma data_source_convert (s : Obj) :
    List.lookup "data_source" (convert_snapshot_to_analysis s) =
      some (.str "cached_7day") := rfl

lemma data_source_live (cd : Obj) (em pm ca gm ai dem ins pred recs : Val) (ts : String) :
    List.lookup "data_source" (liveAnalysisDict cd em pm ca gm ai dem ins pred recs ts) =
      some (.str "youtube_api_v3") := rfl

lemma unify_cases (a : Obj) :
    unify_data_sources a = .error () ∨ unify_data_sources a = .ok a ∨
    ∃ x, unify_data_sources a = .ok (dictSet a "ai_enhanced_metrics" x) := by
  unfold unify_data_sources
  cases pyKey a "channel_metrics" with
  | error e => cases e; left; rfl
  | ok cmV =>
    simp only [Except.bind]
    cases pyDict cmV with
    | error e => cases e; left; rfl
    | ok cm =>
      simp only [Except.bind]
      cases pyKey a "engagement_metrics" with
      | error e => cases e; left; rfl
      | ok emV =>
        simp only [Except.bind]
        cases pyDict emV with
        | error e => cases e; left; rfl
        | ok em =>
          simp only [Except.bind]
          cases pyNum (dictGet cm "subscribers" (.num 0)) with
          | error e => cases e; left; rfl
          | ok subscribers =>
            simp only [Except.bind]
            cases pyNum (dictGet em "top_performing_video_views" (.num 0)) with
            | error e => cases e; left; rfl
            | ok top_video_views =>
              simp only [Except.bind]
              by_cases hai : (List.lookup "ai_enhanced_metrics" a).isSome = true
              · rw [if_pos hai]
                cases pyKey a "ai_enhanced_metrics" with
                | error e => cases e; left; rfl
                | ok aiV =>
                  simp only [Except.bind]
                  cases pyDict aiV with
                  | error e => cases e; left; rfl
                  | ok ai =>
                    simp only [Except.bind]
                    by_cases hscale : assess_channel_scale subscribers = "nano" ∨
                        assess_channel_scale subscribers = "micro"
                    · rw [if_pos hscale]
                      cases pyNum (dictGet em "avg_engagement_rate" (.num 0)) with
                      | error e => cases e; left; rfl
                      | ok er =>
                        simp only [Except.bind]
                        by_cases her : er < 3
                        · rw [if_pos her]
                          cases pyNum (dictGet
                              (dictSet ai "viral_ratio"
                                (.num (pyRoundTo 1 (top_video_views / max subscribers 1))))
                              "channel_health_score" (.num 0)) with
                          | error e => cases e; left; rfl
                          | ok ch =>
                            simp only [Except.bind]
                            by_cases hch : 70 < ch
                            · rw [if_pos hch]
                              right; right; exact ⟨_, rfl⟩
                            · rw [if_neg hch]
                              right; right; exact ⟨_, rfl⟩
                        · rw [if_neg her]
                          right; right; exact ⟨_, rfl⟩
                    · rw [if_neg hscale]
                      right; right; exact ⟨_, rfl⟩
              · rw [if_neg hai]
                right; left; rfl

lemma livePath_cases (env : AnalyzerEnv) (cid : String) :
    livePath env cid = .error () ∨
    livePath env cid = .ok (get_enhanced_fallback_analysis cid) ∨
    (∃ cd em pm ca gm ai dem ins pred recs,
      livePath env cid =
        .ok (liveAnalysisDict cd em pm ca gm ai dem ins pred recs env.timestamp) ∨
      ∃ x, livePath env cid =
        .ok (dictSet (liveAnalysisDict cd em pm ca gm ai dem ins pred recs env.timestamp)
          "ai_enhanced_metrics" x)) := by
  unfold livePath
  cases env.channelData with
  | error e => cases e; left; rfl
  | ok cdOpt =>
    cases cdOpt with
    | none => right; left; rfl
    | some cd =>
      simp only [Except.bind]
      by_cases he : cd.isEmpty = true
      · rw [if_pos he]
        right; left; rfl
      · rw [if_neg he]
        cases env.videosData with
        | error e => cases e; left; rfl
        | ok vd =>
          cases env.engagement with
          | error e => cases e; left; rfl
          | ok em =>
            cases env.contentAnalysis with
            | error e => cases e; left; rfl
            | ok ca =>
              cases env.performance with
              | error e => cases e; left; rfl
              | ok pm =>
                cases env.aiMetrics with
                | error e => cases e; left; rfl
                | ok ai =>
                  cases env.demographics with
                  | error e => cases e; left; rfl
                  | ok dem =>
                    cases env.insights with
                    | error e => cases e; left; rfl
                    | ok ins =>
                      cases env.predictions with
                      | error e => cases e; left; rfl
                      | ok pred =>
                        cases env.recommendations with
                        | error e => cases e; left; rfl
                        | ok recs =>
                          cases env.growthMetrics with
                          | error e => cases e; left; rfl
                          | ok gm =>
                            cases env.saveResult with
                            | error e => cases e; left; rfl
                            | ok u =>
                              simp only [Except.bind]
                              rcases unify_cases (liveAnalysisDict cd em pm ca gm ai
                                  dem ins pred recs env.timestamp) with hu | hu | ⟨x, hu⟩
                              · left; exact hu
                              · right; right
                                exact ⟨cd, em, pm, ca, gm, ai, dem, ins, pred, recs,
                                  Or.inl hu⟩
                              · right; right
                                exact ⟨cd, em, pm, ca, gm, ai, dem, ins, pred, recs,
                                  Or.inr ⟨x, hu⟩⟩

lemma analyze_channel_shapes (env : AnalyzerEnv) (cid : String) (force : Bool) :
    analyze_channel env cid force = get_enhanced_fallback_analysis cid ∨
    analyze_channel env cid force = get_enhanced_fallback_analysis "" ∨
    (∃ s, analyze_channel env cid force = convert_snapshot_to_analysis s) ∨
    (∃ cd em pm ca gm ai dem ins pred recs,
      analyze_channel env cid force =
        liveAnalysisDict cd em pm ca gm ai dem ins pred recs env.timestamp ∨
      ∃ x, analyze_channel env cid force =
        dictSet (liveAnalysisDict cd em pm ca gm ai dem ins pred recs env.timestamp)
          "ai_enhanced_metrics" x) := by
  unfold analyze_channel
  have hcases := livePath_cases env cid
  cases force with
  | true =>
    simp only []
    rcases hcases with h | h | ⟨cd, em, pm, ca, gm, ai, dem, ins, pred, recs, h | ⟨x, h⟩⟩
    · rw [h]; left; rfl
    · rw [h]; left; rfl
    · rw [h]
      right; right; right
      exact ⟨cd, em, pm, ca, gm, ai, dem, ins, pred, recs, Or.inl rfl⟩
    · rw [h]
      right; right; right
      exact ⟨cd, em, pm, ca, gm, ai, dem, ins, pred, recs, Or.inr ⟨x, rfl⟩⟩
  | false =>
    cases hs : env.cachedSnapshot with
    | none =>
      simp only [get_recent_analysis_safe, hs, Option.map_none']
      rcases hcases with h | h | ⟨cd, em, pm, ca, gm, ai, dem, ins, pred, recs, h | ⟨x, h⟩⟩
      · rw [h]; left; rfl
      · rw [h]; left; rfl
      · rw [h]
        right; right; right
        exact ⟨cd, em, pm, ca, gm, ai, dem, ins, pred, recs, Or.inl rfl⟩
      · rw [h]
        right; right; right
        exact ⟨cd, em, pm, ca, gm, ai, dem, ins, pred, recs, Or.inr ⟨x, rfl⟩⟩
    | some s =>
      simp only [get_recent_analysis_safe, hs, Option.map_some']
      by_cases hcr : env.convertRaises = true
      · rw [if_pos hcr]
        right; left; rfl
      · rw [if_neg hcr]
        right; right; left
        exact ⟨s, rfl⟩

/-- C1 (confirmed).  For every channel identifier and every behaviour of
the external providers, the cache and every downstream stage (success,
error, malformed value, or no data), analyze_channel returns (never
raises): the result always carries every section of the Analysis
contract, its data_source discriminator is always one of youtube_api_v3
(live), cached_7day (cached) or fallback, and on total failure (cache
miss or forced refresh combined with missing, erroring or empty channel
data) the result is exactly the all-Unknown fallback structure. -/
theorem analyze_channel_never_raises_structurally_complete :
    ∀ (env : AnalyzerEnv) (channel_id : String) (force_refresh : Bool),
      (∀ k ∈ analysisSections,
        hasKey (analyze_channel env channel_id force_refresh) k = true) ∧
      (∃ tag, List.lookup "data_source" (analyze_channel env channel_id force_refresh) =
          some (.str tag) ∧
        (tag = "youtube_api_v3" ∨ tag = "cached_7day" ∨ tag = "fallback")) ∧
      ((force_refresh = true ∨ env.cachedSnapshot = none) →
        (env.channelData = .error () ∨ env.channelData = .ok none ∨
          env.channelData = .ok (some [])) →
        analyze_channel env channel_id force_refresh =
          get_enhanced_fallback_analysis channel_id) := by
  intro env channel_id force_refresh
  refine ⟨?_, ?_, ?_⟩
  · rcases analyze_channel_shapes env channel_id force_refresh with
      h | h | ⟨s, h⟩ | ⟨cd, em, pm, ca, gm, ai, dem, ins, pred, recs, h | ⟨x, h⟩⟩
    · rw [h]; exact sections_fallback channel_id
    · rw [h]; exact sections_fallback ""
    · rw [h]; exact sections_convert s
    · rw [h]; exact sections_live cd em pm ca gm ai dem ins pred recs env.timestamp
    · rw [h]
      intro k hk
      exact hasKey_dictSet_of _ _ _ _
        (sections_live cd em pm ca gm ai dem ins pred recs env.timestamp k hk)
  · rcases analyze_channel_shapes env channel_id force_refresh with
      h | h | ⟨s, h⟩ | ⟨cd, em, pm, ca, gm, ai, dem, ins, pred, recs, h | ⟨x, h⟩⟩
    · rw [h]; exact ⟨"fallback", data_source_fallback channel_id, Or.inr (Or.inr rfl)⟩
    · rw [h]; exact ⟨"fallback", data_source_fallback "", Or.inr (Or.inr rfl)⟩
    · rw [h]; exact ⟨"cached_7day", data_source_convert s, Or.inr (Or.inl rfl)⟩
    · rw [h]
      exact ⟨"youtube_api_v3",
        data_source_live cd em pm ca gm ai dem ins pred recs env.timestamp, Or.inl rfl⟩
    · rw [h]
      refine ⟨"youtube_api_v3", ?_, Or.inl rfl⟩
      rw [lookup_dictSet_ne _ _ _ _ (by decide)]
      exact data_source_live cd em pm ca gm ai dem ins pred recs env.timestamp
  · intro hcache hdata
    have hlp : livePath env channel_id = .error () ∨
        livePath env channel_id = .ok (get_enhanced_fallback_analysis channel_id) := by
      unfold livePath
      rcases hdata with h | h | h
      · rw [h]; left; rfl
      · rw [h]; right; rfl
      · rw [h]; right; rfl
    unfold analyze_channel
    rcases hcache with hf | hc
    · rw [hf]
      rcases hlp with h | h <;> rw [h] <;> rfl
    · cases force_refresh with
      | true => rcases hlp with h | h <;> rw [h] <;> rfl
      | false =>
        simp only [get_recent_analysis_safe, hc, Option.map_none']
        rcases hlp with h | h <;> rw [h] <;> rfl

/-- C1 witness: with a missing cache row and channel data absent, the
forced-refresh analysis is exactly the fallback structure. -/
theorem analyze_channel_never_raises_witness :
    analyze_channel
      { cachedSnapshot := none, convertRaises := false, channelData := .ok none,
        videosData := .ok .null, engagement := .ok .null, contentAnalysis := .ok .null,
        performance := .ok .null, growthMetrics := .ok .null, aiMetrics := .ok .null,
        demographics := .ok .null, insights := .ok .null, predictions := .ok .null,
        recommendations := .ok .null, saveResult := .ok (), timestamp := "t" }
      "UCx" true = get_enhanced_fallback_analysis "UCx" :=
  (analyze_channel_never_raises_structurally_complete _ "UCx" true).2.2
    (Or.inl rfl) (Or.inr (Or.inl rfl))

end YT
